import Mathlib

/-
Verification of the nsidc/iceflow ATM1B decoding and ITRF harmonization code.

The development shallowly embeds the relevant functions of
src/nsidc/iceflow/data/atm1b.py and src/nsidc/iceflow/itrf/converter.py.

Conventions used throughout:
- Python dt.date values are encoded as the natural number y * 10000 + m * 100 + d
  (e.g. 1993-06-23 becomes 19930623).  For valid dates this encoding is strictly
  order-preserving with respect to the lexicographic (year, month, day) order used
  by Python date comparison, so every comparison made by the embedded code agrees
  with the source.
- Python exceptions are modelled with Option/Except: none / Except.error stands
  for a raised exception.
- Machine/float arithmetic that the claims depend on is exact at the values in
  question; it is modelled over Int/Nat/Rat as appropriate.
-/

/-! ## The curated ITRF date-range table (atm1b.py lines 320-333) -/

/-- GranuleItrfRange models the namedtuple (start, end, itrf); the source field
named end is called stop here because end is a Lean keyword. -/
structure GranuleItrfRange where
  start : Nat
  stop : Nat
  itrf : String
deriving DecidableEq, Repr

def ATM1B_GRANULE_ITRFS : List GranuleItrfRange :=
  [ ⟨19930623, 19960605, "ITRF93"⟩,
    ⟨19970425, 19970528, "ITRF94"⟩,
    ⟨19980627, 19990525, "ITRF96"⟩,
    ⟨20000512, 20010527, "ITRF97"⟩,
    ⟨20011218, 20021121, "ITRF2000"⟩,
    ⟨20021122, 20021122, "ITRF97"⟩,
    ⟨20021123, 20021213, "ITRF2000"⟩,
    ⟨20021214, 20021214, "ITRF97"⟩,
    ⟨20021215, 20070511, "ITRF2000"⟩,
    ⟨20070910, 20110516, "ITRF2005"⟩,
    ⟨20111012, 20180501, "ITRF2008"⟩ ]

/-- Python list indexing ATM1B_GRANULE_ITRFS[i].  All indices reached by the
search below are in bounds, so the default value is never observed in any
reachable call. -/
def granule (i : Nat) : GranuleItrfRange :=
  ATM1B_GRANULE_ITRFS.getD i ⟨0, 0, ""⟩

/-- The inner recursive helper of qfit_itrf_from_date (atm1b.py lines 343-358),
verbatim: probe index i bracketed by lower/upper, halving on each side.  The
source recursion terminates on every input (claim C10); Lean accepts it with the
unconditional measure (max upper (i+1), max upper (i+1) - i). -/
def find (d i lower upper : Nat) : Option String :=
  let g := granule i
  if d < g.start then
    if lower < i then find d ((i - lower) / 2) lower i else none
  else if d ≤ g.stop then some g.itrf
  else if i < upper - 1 then find d ((upper + i) / 2) i upper else none
termination_by (max upper (i + 1), max upper (i + 1) - i)
decreasing_by
  · apply Prod.Lex.left
    omega
  · have h2 : (upper + i) / 2 < upper := by omega
    have h3 : i < (upper + i) / 2 := by omega
    have hm : max upper (i + 1) = upper := by omega
    have hm2 : max upper ((upper + i) / 2 + 1) = upper := by omega
    rw [hm, hm2]
    apply Prod.Lex.right
    omega

/-- Fuel-indexed copy of find, used to express termination/recursion-depth
bounds (claim C10): some r means the recursion finished with result r within
the given fuel, none means the fuel was exhausted. -/
def findFuel : Nat → Nat → Nat → Nat → Nat → Option (Option String)
  | 0, _, _, _, _ => none
  | fuel + 1, d, i, lower, upper =>
    let g := granule i
    if d < g.start then
      if lower < i then findFuel fuel d ((i - lower) / 2) lower i else some none
    else if d ≤ g.stop then some (some g.itrf)
    else if i < upper - 1 then findFuel fuel d ((upper + i) / 2) i upper else some none

/-- The date-range lookup qfit_itrf_from_date (atm1b.py lines 336-367):
lower, upper = (0, len(table)); i = (upper - lower) // 2; a None result raises
RuntimeError, modelled as Except.error. -/
def qfit_itrf_from_date (d : Nat) : Except String String :=
  match find d ((ATM1B_GRANULE_ITRFS.length - 0) / 2) 0 ATM1B_GRANULE_ITRFS.length with
  | some s => Except.ok s
  | none => Except.error "Failed to find ITRF for date"

/-- Specification-side lookup: the ITRF recorded for the (first, and by
non-overlap unique) table span containing the date, none if no span contains
it.  This is the plain linear reading of the table that claim C1 compares the
recursive halving search against. -/
def itrfFromTableSpec (d : Nat) : Option String :=
  (ATM1B_GRANULE_ITRFS.find? fun g => g.start ≤ d ∧ d ≤ g.stop).map fun g => g.itrf
lemma s1 (d : Nat) (h : d < 20021122) :
    find d 5 0 11 = find d 2 0 5 := by
  rw [find.eq_def]
  norm_num [granule, ATM1B_GRANULE_ITRFS]
  all_goals try split_ifs
  all_goals intros
  all_goals first
  | rfl
  | (exfalso; omega)
  | (refine ⟨by omega, ?_⟩; intros; first | rfl | (exfalso; omega))
  | (refine ⟨?_, by omega⟩; intros; first | rfl | (exfalso; omega))

lemma s2 (d : Nat) (h : 20021122 < d) :
    find d 5 0 11 = find d 8 5 11 := by
  rw [find.eq_def]
  norm_num [granule, ATM1B_GRANULE_ITRFS]
  all_goals try split_ifs
  all_goals intros
  all_goals first
  | rfl
  | (exfalso; omega)
  | (refine ⟨by omega, ?_⟩; intros; first | rfl | (exfalso; omega))
  | (refine ⟨?_, by omega⟩; intros; first | rfl | (exfalso; omega))

lemma s3 (d : Nat) (h : d < 19980627) :
    find d 2 0 5 = find d 1 0 2 := by
  rw [find.eq_def]
  norm_num [granule, ATM1B_GRANULE_ITRFS]
  all_goals try split_ifs
  all_goals intros
  all_goals first
  | rfl
  | (exfalso; omega)
  | (refine ⟨by omega, ?_⟩; intros; first | rfl | (exfalso; omega))
  | (refine ⟨?_, by omega⟩; intros; first | rfl | (exfalso; omega))

lemma s4 (d : Nat) (h : 19990525 < d) :
    find d 2 0 5 = find d 3 2 5 := by
  rw [find.eq_def]
  norm_num [granule, ATM1B_GRANULE_ITRFS]
  all_goals try split_ifs
  all_goals intros
  all_goals first
  | rfl
  | (exfalso; omega)
  | (refine ⟨by omega, ?_⟩; intros; first | rfl | (exfalso; omega))
  | (refine ⟨?_, by omega⟩; intros; first | rfl | (exfalso; omega))

lemma s5 (d : Nat) (h : d < 19970425) :
    find d 1 0 2 = find d 0 0 1 := by
  rw [find.eq_def]
  norm_num [granule, ATM1B_GRANULE_ITRFS]
  all_goals try split_ifs
  all_goals intros
  all_goals first
  | rfl
  | (exfalso; omega)
  | (refine ⟨by omega, ?_⟩; intros; first | rfl | (exfalso; omega))
  | (refine ⟨?_, by omega⟩; intros; first | rfl | (exfalso; omega))

lemma s6 (d : Nat) (h : d < 20000512) :
    find d 3 2 5 = find d 0 2 3 := by
  rw [find.eq_def]
  norm_num [granule, ATM1B_GRANULE_ITRFS]
  all_goals try split_ifs
  all_goals intros
  all_goals first
  | rfl
  | (exfalso; omega)
  | (refine ⟨by omega, ?_⟩; intros; first | rfl | (exfalso; omega))
  | (refine ⟨?_, by omega⟩; intros; first | rfl | (exfalso; omega))

lemma s7 (d : Nat) (h : 20010527 < d) :
    find d 3 2 5 = find d 4 3 5 := by
  rw [find.eq_def]
  norm_num [granule, ATM1B_GRANULE_ITRFS]
  all_goals try split_ifs
  all_goals intros
  all_goals first
  | rfl
  | (exfalso; omega)
  | (refine ⟨by omega, ?_⟩; intros; first | rfl | (exfalso; omega))
  | (refine ⟨?_, by omega⟩; intros; first | rfl | (exfalso; omega))

lemma s8 (d : Nat) (h : 19960605 < d) :
    find d 0 2 3 = find d 1 0 3 := by
  rw [find.eq_def]
  norm_num [granule, ATM1B_GRANULE_ITRFS]
  all_goals try split_ifs
  all_goals intros
  all_goals first
  | rfl
  | (exfalso; omega)
  | (refine ⟨by omega, ?_⟩; intros; first | rfl | (exfalso; omega))
  | (refine ⟨?_, by omega⟩; intros; first | rfl | (exfalso; omega))

lemma s9 (d : Nat) (h : 19970528 < d) :
    find d 1 0 3 = find d 2 1 3 := by
  rw [find.eq_def]
  norm_num [granule, ATM1B_GRANULE_ITRFS]
  all_goals try split_ifs
  all_goals intros
  all_goals first
  | rfl
  | (exfalso; omega)
  | (refine ⟨by omega, ?_⟩; intros; first | rfl | (exfalso; omega))
  | (refine ⟨?_, by omega⟩; intros; first | rfl | (exfalso; omega))

lemma s10 (d : Nat) (h : d < 20011218) :
    find d 4 3 5 = find d 0 3 4 := by
  rw [find.eq_def]
  norm_num [granule, ATM1B_GRANULE_ITRFS]
  all_goals try split_ifs
  all_goals intros
  all_goals first
  | rfl
  | (exfalso; omega)
  | (refine ⟨by omega, ?_⟩; intros; first | rfl | (exfalso; omega))
  | (refine ⟨?_, by omega⟩; intros; first | rfl | (exfalso; omega))

lemma s11 (d : Nat) (h : 19960605 < d) :
    find d 0 3 4 = find d 2 0 4 := by
  rw [find.eq_def]
  norm_num [granule, ATM1B_GRANULE_ITRFS]
  all_goals try split_ifs
  all_goals intros
  all_goals first
  | rfl
  | (exfalso; omega)
  | (refine ⟨by omega, ?_⟩; intros; first | rfl | (exfalso; omega))
  | (refine ⟨?_, by omega⟩; intros; first | rfl | (exfalso; omega))

lemma s12 (d : Nat) (h : 19990525 < d) :
    find d 2 0 4 = find d 3 2 4 := by
  rw [find.eq_def]
  norm_num [granule, ATM1B_GRANULE_ITRFS]
  all_goals try split_ifs
  all_goals intros
  all_goals first
  | rfl
  | (exfalso; omega)
  | (refine ⟨by omega, ?_⟩; intros; first | rfl | (exfalso; omega))
  | (refine ⟨?_, by omega⟩; intros; first | rfl | (exfalso; omega))

lemma s13 (d : Nat) (h : d < 20021215) :
    find d 8 5 11 = find d 1 5 8 := by
  rw [find.eq_def]
  norm_num [granule, ATM1B_GRANULE_ITRFS]
  all_goals try split_ifs
  all_goals intros
  all_goals first
  | rfl
  | (exfalso; omega)
  | (refine ⟨by omega, ?_⟩; intros; first | rfl | (exfalso; omega))
  | (refine ⟨?_, by omega⟩; intros; first | rfl | (exfalso; omega))

lemma s14 (d : Nat) (h : 20070511 < d) :
    find d 8 5 11 = find d 9 8 11 := by
  rw [find.eq_def]
  norm_num [granule, ATM1B_GRANULE_ITRFS]
  all_goals try split_ifs
  all_goals intros
  all_goals first
  | rfl
  | (exfalso; omega)
  | (refine ⟨by omega, ?_⟩; intros; first | rfl | (exfalso; omega))
  | (refine ⟨?_, by omega⟩; intros; first | rfl | (exfalso; omega))

lemma s15 (d : Nat) (h : 19970528 < d) :
    find d 1 5 8 = find d 4 1 8 := by
  rw [find.eq_def]
  norm_num [granule, ATM1B_GRANULE_ITRFS]
  all_goals try split_ifs
  all_goals intros
  all_goals first
  | rfl
  | (exfalso; omega)
  | (refine ⟨by omega, ?_⟩; intros; first | rfl | (exfalso; omega))
  | (refine ⟨?_, by omega⟩; intros; first | rfl | (exfalso; omega))

lemma s16 (d : Nat) (h : 20021121 < d) :
    find d 4 1 8 = find d 6 4 8 := by
  rw [find.eq_def]
  norm_num [granule, ATM1B_GRANULE_ITRFS]
  all_goals try split_ifs
  all_goals intros
  all_goals first
  | rfl
  | (exfalso; omega)
  | (refine ⟨by omega, ?_⟩; intros; first | rfl | (exfalso; omega))
  | (refine ⟨?_, by omega⟩; intros; first | rfl | (exfalso; omega))

lemma s17 (d : Nat) (h : 20021213 < d) :
    find d 6 4 8 = find d 7 6 8 := by
  rw [find.eq_def]
  norm_num [granule, ATM1B_GRANULE_ITRFS]
  all_goals try split_ifs
  all_goals intros
  all_goals first
  | rfl
  | (exfalso; omega)
  | (refine ⟨by omega, ?_⟩; intros; first | rfl | (exfalso; omega))
  | (refine ⟨?_, by omega⟩; intros; first | rfl | (exfalso; omega))

lemma s18 (d : Nat) (h : d < 20070910) :
    find d 9 8 11 = find d 0 8 9 := by
  rw [find.eq_def]
  norm_num [granule, ATM1B_GRANULE_ITRFS]
  all_goals try split_ifs
  all_goals intros
  all_goals first
  | rfl
  | (exfalso; omega)
  | (refine ⟨by omega, ?_⟩; intros; first | rfl | (exfalso; omega))
  | (refine ⟨?_, by omega⟩; intros; first | rfl | (exfalso; omega))

lemma s19 (d : Nat) (h : 20110516 < d) :
    find d 9 8 11 = find d 10 9 11 := by
  rw [find.eq_def]
  norm_num [granule, ATM1B_GRANULE_ITRFS]
  all_goals try split_ifs
  all_goals intros
  all_goals first
  | rfl
  | (exfalso; omega)
  | (refine ⟨by omega, ?_⟩; intros; first | rfl | (exfalso; omega))
  | (refine ⟨?_, by omega⟩; intros; first | rfl | (exfalso; omega))

lemma s20 (d : Nat) (h : 19960605 < d) :
    find d 0 8 9 = find d 4 0 9 := by
  rw [find.eq_def]
  norm_num [granule, ATM1B_GRANULE_ITRFS]
  all_goals try split_ifs
  all_goals intros
  all_goals first
  | rfl
  | (exfalso; omega)
  | (refine ⟨by omega, ?_⟩; intros; first | rfl | (exfalso; omega))
  | (refine ⟨?_, by omega⟩; intros; first | rfl | (exfalso; omega))

lemma s21 (d : Nat) (h : 20021121 < d) :
    find d 4 0 9 = find d 6 4 9 := by
  rw [find.eq_def]
  norm_num [granule, ATM1B_GRANULE_ITRFS]
  all_goals try split_ifs
  all_goals intros
  all_goals first
  | rfl
  | (exfalso; omega)
  | (refine ⟨by omega, ?_⟩; intros; first | rfl | (exfalso; omega))
  | (refine ⟨?_, by omega⟩; intros; first | rfl | (exfalso; omega))

lemma s22 (d : Nat) (h : 20021213 < d) :
    find d 6 4 9 = find d 7 6 9 := by
  rw [find.eq_def]
  norm_num [granule, ATM1B_GRANULE_ITRFS]
  all_goals try split_ifs
  all_goals intros
  all_goals first
  | rfl
  | (exfalso; omega)
  | (refine ⟨by omega, ?_⟩; intros; first | rfl | (exfalso; omega))
  | (refine ⟨?_, by omega⟩; intros; first | rfl | (exfalso; omega))

lemma s23 (d : Nat) (h : 20021214 < d) :
    find d 7 6 9 = find d 8 7 9 := by
  rw [find.eq_def]
  norm_num [granule, ATM1B_GRANULE_ITRFS]
  all_goals try split_ifs
  all_goals intros
  all_goals first
  | rfl
  | (exfalso; omega)
  | (refine ⟨by omega, ?_⟩; intros; first | rfl | (exfalso; omega))
  | (refine ⟨?_, by omega⟩; intros; first | rfl | (exfalso; omega))

lemma s24 (d : Nat) (h : d < 20111012) :
    find d 10 9 11 = find d 0 9 10 := by
  rw [find.eq_def]
  norm_num [granule, ATM1B_GRANULE_ITRFS]
  all_goals try split_ifs
  all_goals intros
  all_goals first
  | rfl
  | (exfalso; omega)
  | (refine ⟨by omega, ?_⟩; intros; first | rfl | (exfalso; omega))
  | (refine ⟨?_, by omega⟩; intros; first | rfl | (exfalso; omega))

lemma s25 (d : Nat) (h : 19960605 < d) :
    find d 0 9 10 = find d 5 0 10 := by
  rw [find.eq_def]
  norm_num [granule, ATM1B_GRANULE_ITRFS]
  all_goals try split_ifs
  all_goals intros
  all_goals first
  | rfl
  | (exfalso; omega)
  | (refine ⟨by omega, ?_⟩; intros; first | rfl | (exfalso; omega))
  | (refine ⟨?_, by omega⟩; intros; first | rfl | (exfalso; omega))

lemma s26 (d : Nat) (h : 20021122 < d) :
    find d 5 0 10 = find d 7 5 10 := by
  rw [find.eq_def]
  norm_num [granule, ATM1B_GRANULE_ITRFS]
  all_goals try split_ifs
  all_goals intros
  all_goals first
  | rfl
  | (exfalso; omega)
  | (refine ⟨by omega, ?_⟩; intros; first | rfl | (exfalso; omega))
  | (refine ⟨?_, by omega⟩; intros; first | rfl | (exfalso; omega))

lemma s27 (d : Nat) (h : 20021214 < d) :
    find d 7 5 10 = find d 8 7 10 := by
  rw [find.eq_def]
  norm_num [granule, ATM1B_GRANULE_ITRFS]
  all_goals try split_ifs
  all_goals intros
  all_goals first
  | rfl
  | (exfalso; omega)
  | (refine ⟨by omega, ?_⟩; intros; first | rfl | (exfalso; omega))
  | (refine ⟨?_, by omega⟩; intros; first | rfl | (exfalso; omega))

lemma s28 (d : Nat) (h : 20070511 < d) :
    find d 8 7 10 = find d 9 8 10 := by
  rw [find.eq_def]
  norm_num [granule, ATM1B_GRANULE_ITRFS]
  all_goals try split_ifs
  all_goals intros
  all_goals first
  | rfl
  | (exfalso; omega)
  | (refine ⟨by omega, ?_⟩; intros; first | rfl | (exfalso; omega))
  | (refine ⟨?_, by omega⟩; intros; first | rfl | (exfalso; omega))

lemma lg0 (d : Nat) (h1 : 19930623 ≤ d) (h2 : d ≤ 19960605) :
    find d 0 0 1 = some "ITRF93" := by
  rw [find.eq_def]
  norm_num [granule, ATM1B_GRANULE_ITRFS]
  all_goals try split_ifs
  all_goals intros
  all_goals first
  | rfl
  | (exfalso; omega)
  | (refine ⟨by omega, ?_⟩; intros; first | rfl | (exfalso; omega))
  | (refine ⟨?_, by omega⟩; intros; first | rfl | (exfalso; omega))

lemma lb0 (d : Nat) (h1 : d < 19930623) :
    find d 0 0 1 = none := by
  rw [find.eq_def]
  norm_num [granule, ATM1B_GRANULE_ITRFS]
  all_goals try split_ifs
  all_goals intros
  all_goals first
  | rfl
  | (exfalso; omega)
  | (refine ⟨by omega, ?_⟩; intros; first | rfl | (exfalso; omega))
  | (refine ⟨?_, by omega⟩; intros; first | rfl | (exfalso; omega))

lemma la0 (d : Nat) (h1 : 19960605 < d) :
    find d 0 0 1 = none := by
  rw [find.eq_def]
  norm_num [granule, ATM1B_GRANULE_ITRFS]
  all_goals try split_ifs
  all_goals intros
  all_goals first
  | rfl
  | (exfalso; omega)
  | (refine ⟨by omega, ?_⟩; intros; first | rfl | (exfalso; omega))
  | (refine ⟨?_, by omega⟩; intros; first | rfl | (exfalso; omega))

lemma lg1 (d : Nat) (h1 : 19970425 ≤ d) (h2 : d ≤ 19970528) :
    find d 1 0 2 = some "ITRF94" := by
  rw [find.eq_def]
  norm_num [granule, ATM1B_GRANULE_ITRFS]
  all_goals try split_ifs
  all_goals intros
  all_goals first
  | rfl
  | (exfalso; omega)
  | (refine ⟨by omega, ?_⟩; intros; first | rfl | (exfalso; omega))
  | (refine ⟨?_, by omega⟩; intros; first | rfl | (exfalso; omega))

lemma la1 (d : Nat) (h1 : 19970528 < d) :
    find d 1 0 2 = none := by
  rw [find.eq_def]
  norm_num [granule, ATM1B_GRANULE_ITRFS]
  all_goals try split_ifs
  all_goals intros
  all_goals first
  | rfl
  | (exfalso; omega)
  | (refine ⟨by omega, ?_⟩; intros; first | rfl | (exfalso; omega))
  | (refine ⟨?_, by omega⟩; intros; first | rfl | (exfalso; omega))

lemma lg2 (d : Nat) (h1 : 19980627 ≤ d) (h2 : d ≤ 19990525) :
    find d 2 0 5 = some "ITRF96" := by
  rw [find.eq_def]
  norm_num [granule, ATM1B_GRANULE_ITRFS]
  all_goals try split_ifs
  all_goals intros
  all_goals first
  | rfl
  | (exfalso; omega)
  | (refine ⟨by omega, ?_⟩; intros; first | rfl | (exfalso; omega))
  | (refine ⟨?_, by omega⟩; intros; first | rfl | (exfalso; omega))

lemma la2b (d : Nat) (h1 : 19990525 < d) :
    find d 2 1 3 = none := by
  rw [find.eq_def]
  norm_num [granule, ATM1B_GRANULE_ITRFS]
  all_goals try split_ifs
  all_goals intros
  all_goals first
  | rfl
  | (exfalso; omega)
  | (refine ⟨by omega, ?_⟩; intros; first | rfl | (exfalso; omega))
  | (refine ⟨?_, by omega⟩; intros; first | rfl | (exfalso; omega))

lemma lg3 (d : Nat) (h1 : 20000512 ≤ d) (h2 : d ≤ 20010527) :
    find d 3 2 5 = some "ITRF97" := by
  rw [find.eq_def]
  norm_num [granule, ATM1B_GRANULE_ITRFS]
  all_goals try split_ifs
  all_goals intros
  all_goals first
  | rfl
  | (exfalso; omega)
  | (refine ⟨by omega, ?_⟩; intros; first | rfl | (exfalso; omega))
  | (refine ⟨?_, by omega⟩; intros; first | rfl | (exfalso; omega))

lemma la3b (d : Nat) (h1 : 20010527 < d) :
    find d 3 2 4 = none := by
  rw [find.eq_def]
  norm_num [granule, ATM1B_GRANULE_ITRFS]
  all_goals try split_ifs
  all_goals intros
  all_goals first
  | rfl
  | (exfalso; omega)
  | (refine ⟨by omega, ?_⟩; intros; first | rfl | (exfalso; omega))
  | (refine ⟨?_, by omega⟩; intros; first | rfl | (exfalso; omega))

lemma lg4 (d : Nat) (h1 : 20011218 ≤ d) (h2 : d ≤ 20021121) :
    find d 4 3 5 = some "ITRF2000" := by
  rw [find.eq_def]
  norm_num [granule, ATM1B_GRANULE_ITRFS]
  all_goals try split_ifs
  all_goals intros
  all_goals first
  | rfl
  | (exfalso; omega)
  | (refine ⟨by omega, ?_⟩; intros; first | rfl | (exfalso; omega))
  | (refine ⟨?_, by omega⟩; intros; first | rfl | (exfalso; omega))

lemma lg5 (d : Nat) (h1 : 20021122 ≤ d) (h2 : d ≤ 20021122) :
    find d 5 0 11 = some "ITRF97" := by
  rw [find.eq_def]
  norm_num [granule, ATM1B_GRANULE_ITRFS]
  all_goals try split_ifs
  all_goals intros
  all_goals first
  | rfl
  | (exfalso; omega)
  | (refine ⟨by omega, ?_⟩; intros; first | rfl | (exfalso; omega))
  | (refine ⟨?_, by omega⟩; intros; first | rfl | (exfalso; omega))

lemma lg6 (d : Nat) (h1 : 20021123 ≤ d) (h2 : d ≤ 20021213) :
    find d 6 4 8 = some "ITRF2000" := by
  rw [find.eq_def]
  norm_num [granule, ATM1B_GRANULE_ITRFS]
  all_goals try split_ifs
  all_goals intros
  all_goals first
  | rfl
  | (exfalso; omega)
  | (refine ⟨by omega, ?_⟩; intros; first | rfl | (exfalso; omega))
  | (refine ⟨?_, by omega⟩; intros; first | rfl | (exfalso; omega))

lemma lg7 (d : Nat) (h1 : 20021214 ≤ d) (h2 : d ≤ 20021214) :
    find d 7 6 8 = some "ITRF97" := by
  rw [find.eq_def]
  norm_num [granule, ATM1B_GRANULE_ITRFS]
  all_goals try split_ifs
  all_goals intros
  all_goals first
  | rfl
  | (exfalso; omega)
  | (refine ⟨by omega, ?_⟩; intros; first | rfl | (exfalso; omega))
  | (refine ⟨?_, by omega⟩; intros; first | rfl | (exfalso; omega))

lemma lg8 (d : Nat) (h1 : 20021215 ≤ d) (h2 : d ≤ 20070511) :
    find d 8 5 11 = some "ITRF2000" := by
  rw [find.eq_def]
  norm_num [granule, ATM1B_GRANULE_ITRFS]
  all_goals try split_ifs
  all_goals intros
  all_goals first
  | rfl
  | (exfalso; omega)
  | (refine ⟨by omega, ?_⟩; intros; first | rfl | (exfalso; omega))
  | (refine ⟨?_, by omega⟩; intros; first | rfl | (exfalso; omega))

lemma la8b (d : Nat) (h1 : 20070511 < d) :
    find d 8 7 9 = none := by
  rw [find.eq_def]
  norm_num [granule, ATM1B_GRANULE_ITRFS]
  all_goals try split_ifs
  all_goals intros
  all_goals first
  | rfl
  | (exfalso; omega)
  | (refine ⟨by omega, ?_⟩; intros; first | rfl | (exfalso; omega))
  | (refine ⟨?_, by omega⟩; intros; first | rfl | (exfalso; omega))

lemma lg9 (d : Nat) (h1 : 20070910 ≤ d) (h2 : d ≤ 20110516) :
    find d 9 8 11 = some "ITRF2005" := by
  rw [find.eq_def]
  norm_num [granule, ATM1B_GRANULE_ITRFS]
  all_goals try split_ifs
  all_goals intros
  all_goals first
  | rfl
  | (exfalso; omega)
  | (refine ⟨by omega, ?_⟩; intros; first | rfl | (exfalso; omega))
  | (refine ⟨?_, by omega⟩; intros; first | rfl | (exfalso; omega))

lemma la9b (d : Nat) (h1 : 20110516 < d) :
    find d 9 8 10 = none := by
  rw [find.eq_def]
  norm_num [granule, ATM1B_GRANULE_ITRFS]
  all_goals try split_ifs
  all_goals intros
  all_goals first
  | rfl
  | (exfalso; omega)
  | (refine ⟨by omega, ?_⟩; intros; first | rfl | (exfalso; omega))
  | (refine ⟨?_, by omega⟩; intros; first | rfl | (exfalso; omega))

lemma lg10 (d : Nat) (h1 : 20111012 ≤ d) (h2 : d ≤ 20180501) :
    find d 10 9 11 = some "ITRF2008" := by
  rw [find.eq_def]
  norm_num [granule, ATM1B_GRANULE_ITRFS]
  all_goals try split_ifs
  all_goals intros
  all_goals first
  | rfl
  | (exfalso; omega)
  | (refine ⟨by omega, ?_⟩; intros; first | rfl | (exfalso; omega))
  | (refine ⟨?_, by omega⟩; intros; first | rfl | (exfalso; omega))

lemma la10 (d : Nat) (h1 : 20180501 < d) :
    find d 10 9 11 = none := by
  rw [find.eq_def]
  norm_num [granule, ATM1B_GRANULE_ITRFS]
  all_goals try split_ifs
  all_goals intros
  all_goals first
  | rfl
  | (exfalso; omega)
  | (refine ⟨by omega, ?_⟩; intros; first | rfl | (exfalso; omega))
  | (refine ⟨?_, by omega⟩; intros; first | rfl | (exfalso; omega))
lemma r0 (d : Nat) (h1 : d < 19930623) :
    find d 5 0 11 = none := by
  rw [s1 d (by omega),
      s3 d (by omega),
      s5 d (by omega),
      lb0 d (by omega)]

lemma spec_r0 (d : Nat) (h1 : d < 19930623) :
    itrfFromTableSpec d = none := by
  unfold itrfFromTableSpec ATM1B_GRANULE_ITRFS
  rw [List.find?_cons_of_neg _ (by simp; omega),
      List.find?_cons_of_neg _ (by simp; omega),
      List.find?_cons_of_neg _ (by simp; omega),
      List.find?_cons_of_neg _ (by simp; omega),
      List.find?_cons_of_neg _ (by simp; omega),
      List.find?_cons_of_neg _ (by simp; omega),
      List.find?_cons_of_neg _ (by simp; omega),
      List.find?_cons_of_neg _ (by simp; omega),
      List.find?_cons_of_neg _ (by simp; omega),
      List.find?_cons_of_neg _ (by simp; omega),
      List.find?_cons_of_neg _ (by simp; omega)]
  rfl

lemma r1 (d : Nat) (h1 : 19930623 ≤ d) (h2 : d ≤ 19960605) :
    find d 5 0 11 = some "ITRF93" := by
  rw [s1 d (by omega),
      s3 d (by omega),
      s5 d (by omega),
      lg0 d (by omega) (by omega)]

lemma spec_r1 (d : Nat) (h1 : 19930623 ≤ d) (h2 : d ≤ 19960605) :
    itrfFromTableSpec d = some "ITRF93" := by
  unfold itrfFromTableSpec ATM1B_GRANULE_ITRFS
  rw [List.find?_cons_of_pos _ (by simp; omega)]
  rfl

lemma r2 (d : Nat) (h1 : 19960605 < d) (h2 : d < 19970425) :
    find d 5 0 11 = none := by
  rw [s1 d (by omega),
      s3 d (by omega),
      s5 d (by omega),
      la0 d (by omega)]

lemma spec_r2 (d : Nat) (h1 : 19960605 < d) (h2 : d < 19970425) :
    itrfFromTableSpec d = none := by
  unfold itrfFromTableSpec ATM1B_GRANULE_ITRFS
  rw [List.find?_cons_of_neg _ (by simp; omega),
      List.find?_cons_of_neg _ (by simp; omega),
      List.find?_cons_of_neg _ (by simp; omega),
      List.find?_cons_of_neg _ (by simp; omega),
      List.find?_cons_of_neg _ (by simp; omega),
      List.find?_cons_of_neg _ (by simp; omega),
      List.find?_cons_of_neg _ (by simp; omega),
      List.find?_cons_of_neg _ (by simp; omega),
      List.find?_cons_of_neg _ (by simp; omega),
      List.find?_cons_of_neg _ (by simp; omega),
      List.find?_cons_of_neg _ (by simp; omega)]
  rfl

lemma r3 (d : Nat) (h1 : 19970425 ≤ d) (h2 : d ≤ 19970528) :
    find d 5 0 11 = some "ITRF94" := by
  rw [s1 d (by omega),
      s3 d (by omega),
      lg1 d (by omega) (by omega)]

lemma spec_r3 (d : Nat) (h1 : 19970425 ≤ d) (h2 : d ≤ 19970528) :
    itrfFromTableSpec d = some "ITRF94" := by
  unfold itrfFromTableSpec ATM1B_GRANULE_ITRFS
  rw [List.find?_cons_of_neg _ (by simp; omega),
      List.find?_cons_of_pos _ (by simp; omega)]
  rfl

lemma r4 (d : Nat) (h1 : 19970528 < d) (h2 : d < 19980627) :
    find d 5 0 11 = none := by
  rw [s1 d (by omega),
      s3 d (by omega),
      la1 d (by omega)]

lemma spec_r4 (d : Nat) (h1 : 19970528 < d) (h2 : d < 19980627) :
    itrfFromTableSpec d = none := by
  unfold itrfFromTableSpec ATM1B_GRANULE_ITRFS
  rw [List.find?_cons_of_neg _ (by simp; omega),
      List.find?_cons_of_neg _ (by simp; omega),
      List.find?_cons_of_neg _ (by simp; omega),
      List.find?_cons_of_neg _ (by simp; omega),
      List.find?_cons_of_neg _ (by simp; omega),
      List.find?_cons_of_neg _ (by simp; omega),
      List.find?_cons_of_neg _ (by simp; omega),
      List.find?_cons_of_neg _ (by simp; omega),
      List.find?_cons_of_neg _ (by simp; omega),
      List.find?_cons_of_neg _ (by simp; omega),
      List.find?_cons_of_neg _ (by simp; omega)]
  rfl

lemma r5 (d : Nat) (h1 : 19980627 ≤ d) (h2 : d ≤ 19990525) :
    find d 5 0 11 = some "ITRF96" := by
  rw [s1 d (by omega),
      lg2 d (by omega) (by omega)]

lemma spec_r5 (d : Nat) (h1 : 19980627 ≤ d) (h2 : d ≤ 19990525) :
    itrfFromTableSpec d = some "ITRF96" := by
  unfold itrfFromTableSpec ATM1B_GRANULE_ITRFS
  rw [List.find?_cons_of_neg _ (by simp; omega),
      List.find?_cons_of_neg _ (by simp; omega),
      List.find?_cons_of_pos _ (by simp; omega)]
  rfl

lemma r6 (d : Nat) (h1 : 19990525 < d) (h2 : d < 20000512) :
    find d 5 0 11 = none := by
  rw [s1 d (by omega),
      s4 d (by omega),
      s6 d (by omega),
      s8 d (by omega),
      s9 d (by omega),
      la2b d (by omega)]

lemma spec_r6 (d : Nat) (h1 : 19990525 < d) (h2 : d < 20000512) :
    itrfFromTableSpec d = none := by
  unfold itrfFromTableSpec ATM1B_GRANULE_ITRFS
  rw [List.find?_cons_of_neg _ (by simp; omega),
      List.find?_cons_of_neg _ (by simp; omega),
      List.find?_cons_of_neg _ (by simp; omega),
      List.find?_cons_of_neg _ (by simp; omega),
      List.find?_cons_of_neg _ (by simp; omega),
      List.find?_cons_of_neg _ (by simp; omega),
      List.find?_cons_of_neg _ (by simp; omega),
      List.find?_cons_of_neg _ (by simp; omega),
      List.find?_cons_of_neg _ (by simp; omega),
      List.find?_cons_of_neg _ (by simp; omega),
      List.find?_cons_of_neg _ (by simp; omega)]
  rfl

lemma r7 (d : Nat) (h1 : 20000512 ≤ d) (h2 : d ≤ 20010527) :
    find d 5 0 11 = some "ITRF97" := by
  rw [s1 d (by omega),
      s4 d (by omega),
      lg3 d (by omega) (by omega)]

lemma spec_r7 (d : Nat) (h1 : 20000512 ≤ d) (h2 : d ≤ 20010527) :
    itrfFromTableSpec d = some "ITRF97" := by
  unfold itrfFromTableSpec ATM1B_GRANULE_ITRFS
  rw [List.find?_cons_of_neg _ (by simp; omega),
      List.find?_cons_of_neg _ (by simp; omega),
      List.find?_cons_of_neg _ (by simp; omega),
      List.find?_cons_of_pos _ (by simp; omega)]
  rfl

lemma r8 (d : Nat) (h1 : 20010527 < d) (h2 : d < 20011218) :
    find d 5 0 11 = none := by
  rw [s1 d (by omega),
      s4 d (by omega),
      s7 d (by omega),
      s10 d (by omega),
      s11 d (by omega),
      s12 d (by omega),
      la3b d (by omega)]

lemma spec_r8 (d : Nat) (h1 : 20010527 < d) (h2 : d < 20011218) :
    itrfFromTableSpec d = none := by
  unfold itrfFromTableSpec ATM1B_GRANULE_ITRFS
  rw [List.find?_cons_of_neg _ (by simp; omega),
      List.find?_cons_of_neg _ (by simp; omega),
      List.find?_cons_of_neg _ (by simp; omega),
      List.find?_cons_of_neg _ (by simp; omega),
      List.find?_cons_of_neg _ (by simp; omega),
      List.find?_cons_of_neg _ (by simp; omega),
      List.find?_cons_of_neg _ (by simp; omega),
      List.find?_cons_of_neg _ (by simp; omega),
      List.find?_cons_of_neg _ (by simp; omega),
      List.find?_cons_of_neg _ (by simp; omega),
      List.find?_cons_of_neg _ (by simp; omega)]
  rfl

lemma r9 (d : Nat) (h1 : 20011218 ≤ d) (h2 : d ≤ 20021121) :
    find d 5 0 11 = some "ITRF2000" := by
  rw [s1 d (by omega),
      s4 d (by omega),
      s7 d (by omega),
      lg4 d (by omega) (by omega)]

lemma spec_r9 (d : Nat) (h1 : 20011218 ≤ d) (h2 : d ≤ 20021121) :
    itrfFromTableSpec d = some "ITRF2000" := by
  unfold itrfFromTableSpec ATM1B_GRANULE_ITRFS
  rw [List.find?_cons_of_neg _ (by simp; omega),
      List.find?_cons_of_neg _ (by simp; omega),
      List.find?_cons_of_neg _ (by simp; omega),
      List.find?_cons_of_neg _ (by simp; omega),
      List.find?_cons_of_pos _ (by simp; omega)]
  rfl

lemma r11 (d : Nat) (h1 : 20021122 ≤ d) (h2 : d ≤ 20021122) :
    find d 5 0 11 = some "ITRF97" := by
  rw [lg5 d (by omega) (by omega)]

lemma spec_r11 (d : Nat) (h1 : 20021122 ≤ d) (h2 : d ≤ 20021122) :
    itrfFromTableSpec d = some "ITRF97" := by
  unfold itrfFromTableSpec ATM1B_GRANULE_ITRFS
  rw [List.find?_cons_of_neg _ (by simp; omega),
      List.find?_cons_of_neg _ (by simp; omega),
      List.find?_cons_of_neg _ (by simp; omega),
      List.find?_cons_of_neg _ (by simp; omega),
      List.find?_cons_of_neg _ (by simp; omega),
      List.find?_cons_of_pos _ (by simp; omega)]
  rfl

lemma r13 (d : Nat) (h1 : 20021123 ≤ d) (h2 : d ≤ 20021213) :
    find d 5 0 11 = some "ITRF2000" := by
  rw [s2 d (by omega),
      s13 d (by omega),
      s15 d (by omega),
      s16 d (by omega),
      lg6 d (by omega) (by omega)]

lemma spec_r13 (d : Nat) (h1 : 20021123 ≤ d) (h2 : d ≤ 20021213) :
    itrfFromTableSpec d = some "ITRF2000" := by
  unfold itrfFromTableSpec ATM1B_GRANULE_ITRFS
  rw [List.find?_cons_of_neg _ (by simp; omega),
      List.find?_cons_of_neg _ (by simp; omega),
      List.find?_cons_of_neg _ (by simp; omega),
      List.find?_cons_of_neg _ (by simp; omega),
      List.find?_cons_of_neg _ (by simp; omega),
      List.find?_cons_of_neg _ (by simp; omega),
      List.find?_cons_of_pos _ (by simp; omega)]
  rfl

lemma r14 (d : Nat) (h1 : 20021214 ≤ d) (h2 : d ≤ 20021214) :
    find d 5 0 11 = some "ITRF97" := by
  rw [s2 d (by omega),
      s13 d (by omega),
      s15 d (by omega),
      s16 d (by omega),
      s17 d (by omega),
      lg7 d (by omega) (by omega)]

lemma spec_r14 (d : Nat) (h1 : 20021214 ≤ d) (h2 : d ≤ 20021214) :
    itrfFromTableSpec d = some "ITRF97" := by
  unfold itrfFromTableSpec ATM1B_GRANULE_ITRFS
  rw [List.find?_cons_of_neg _ (by simp; omega),
      List.find?_cons_of_neg _ (by simp; omega),
      List.find?_cons_of_neg _ (by simp; omega),
      List.find?_cons_of_neg _ (by simp; omega),
      List.find?_cons_of_neg _ (by simp; omega),
      List.find?_cons_of_neg _ (by simp; omega),
      List.find?_cons_of_neg _ (by simp; omega),
      List.find?_cons_of_pos _ (by simp; omega)]
  rfl

lemma r16 (d : Nat) (h1 : 20021215 ≤ d) (h2 : d ≤ 20070511) :
    find d 5 0 11 = some "ITRF2000" := by
  rw [s2 d (by omega),
      lg8 d (by omega) (by omega)]

lemma spec_r16 (d : Nat) (h1 : 20021215 ≤ d) (h2 : d ≤ 20070511) :
    itrfFromTableSpec d = some "ITRF2000" := by
  unfold itrfFromTableSpec ATM1B_GRANULE_ITRFS
  rw [List.find?_cons_of_neg _ (by simp; omega),
      List.find?_cons_of_neg _ (by simp; omega),
      List.find?_cons_of_neg _ (by simp; omega),
      List.find?_cons_of_neg _ (by simp; omega),
      List.find?_cons_of_neg _ (by simp; omega),
      List.find?_cons_of_neg _ (by simp; omega),
      List.find?_cons_of_neg _ (by simp; omega),
      List.find?_cons_of_neg _ (by simp; omega),
      List.find?_cons_of_pos _ (by simp; omega)]
  rfl

lemma r17 (d : Nat) (h1 : 20070511 < d) (h2 : d < 20070910) :
    find d 5 0 11 = none := by
  rw [s2 d (by omega),
      s14 d (by omega),
      s18 d (by omega),
      s20 d (by omega),
      s21 d (by omega),
      s22 d (by omega),
      s23 d (by omega),
      la8b d (by omega)]

lemma spec_r17 (d : Nat) (h1 : 20070511 < d) (h2 : d < 20070910) :
    itrfFromTableSpec d = none := by
  unfold itrfFromTableSpec ATM1B_GRANULE_ITRFS
  rw [List.find?_cons_of_neg _ (by simp; omega),
      List.find?_cons_of_neg _ (by simp; omega),
      List.find?_cons_of_neg _ (by simp; omega),
      List.find?_cons_of_neg _ (by simp; omega),
      List.find?_cons_of_neg _ (by simp; omega),
      List.find?_cons_of_neg _ (by simp; omega),
      List.find?_cons_of_neg _ (by simp; omega),
      List.find?_cons_of_neg _ (by simp; omega),
      List.find?_cons_of_neg _ (by simp; omega),
      List.find?_cons_of_neg _ (by simp; omega),
      List.find?_cons_of_neg _ (by simp; omega)]
  rfl

lemma r18 (d : Nat) (h1 : 20070910 ≤ d) (h2 : d ≤ 20110516) :
    find d 5 0 11 = some "ITRF2005" := by
  rw [s2 d (by omega),
      s14 d (by omega),
      lg9 d (by omega) (by omega)]

lemma spec_r18 (d : Nat) (h1 : 20070910 ≤ d) (h2 : d ≤ 20110516) :
    itrfFromTableSpec d = some "ITRF2005" := by
  unfold itrfFromTableSpec ATM1B_GRANULE_ITRFS
  rw [List.find?_cons_of_neg _ (by simp; omega),
      List.find?_cons_of_neg _ (by simp; omega),
      List.find?_cons_of_neg _ (by simp; omega),
      List.find?_cons_of_neg _ (by simp; omega),
      List.find?_cons_of_neg _ (by simp; omega),
      List.find?_cons_of_neg _ (by simp; omega),
      List.find?_cons_of_neg _ (by simp; omega),
      List.find?_cons_of_neg _ (by simp; omega),
      List.find?_cons_of_neg _ (by simp; omega),
      List.find?_cons_of_pos _ (by simp; omega)]
  rfl

lemma r19 (d : Nat) (h1 : 20110516 < d) (h2 : d < 20111012) :
    find d 5 0 11 = none := by
  rw [s2 d (by omega),
      s14 d (by omega),
      s19 d (by omega),
      s24 d (by omega),
      s25 d (by omega),
      s26 d (by omega),
      s27 d (by omega),
      s28 d (by omega),
      la9b d (by omega)]

lemma spec_r19 (d : Nat) (h1 : 20110516 < d) (h2 : d < 20111012) :
    itrfFromTableSpec d = none := by
  unfold itrfFromTableSpec ATM1B_GRANULE_ITRFS
  rw [List.find?_cons_of_neg _ (by simp; omega),
      List.find?_cons_of_neg _ (by simp; omega),
      List.find?_cons_of_neg _ (by simp; omega),
      List.find?_cons_of_neg _ (by simp; omega),
      List.find?_cons_of_neg _ (by simp; omega),
      List.find?_cons_of_neg _ (by simp; omega),
      List.find?_cons_of_neg _ (by simp; omega),
      List.find?_cons_of_neg _ (by simp; omega),
      List.find?_cons_of_neg _ (by simp; omega),
      List.find?_cons_of_neg _ (by simp; omega),
      List.find?_cons_of_neg _ (by simp; omega)]
  rfl

lemma r20 (d : Nat) (h1 : 20111012 ≤ d) (h2 : d ≤ 20180501) :
    find d 5 0 11 = some "ITRF2008" := by
  rw [s2 d (by omega),
      s14 d (by omega),
      s19 d (by omega),
      lg10 d (by omega) (by omega)]

lemma spec_r20 (d : Nat) (h1 : 20111012 ≤ d) (h2 : d ≤ 20180501) :
    itrfFromTableSpec d = some "ITRF2008" := by
  unfold itrfFromTableSpec ATM1B_GRANULE_ITRFS
  rw [List.find?_cons_of_neg _ (by simp; omega),
      List.find?_cons_of_neg _ (by simp; omega),
      List.find?_cons_of_neg _ (by simp; omega),
      List.find?_cons_of_neg _ (by simp; omega),
      List.find?_cons_of_neg _ (by simp; omega),
      List.find?_cons_of_neg _ (by simp; omega),
      List.find?_cons_of_neg _ (by simp; omega),
      List.find?_cons_of_neg _ (by simp; omega),
      List.find?_cons_of_neg _ (by simp; omega),
      List.find?_cons_of_neg _ (by simp; omega),
      List.find?_cons_of_pos _ (by simp; omega)]
  rfl

lemma r21 (d : Nat) (h1 : 20180501 < d) :
    find d 5 0 11 = none := by
  rw [s2 d (by omega),
      s14 d (by omega),
      s19 d (by omega),
      la10 d (by omega)]

lemma spec_r21 (d : Nat) (h1 : 20180501 < d) :
    itrfFromTableSpec d = none := by
  unfold itrfFromTableSpec ATM1B_GRANULE_ITRFS
  rw [List.find?_cons_of_neg _ (by simp; omega),
      List.find?_cons_of_neg _ (by simp; omega),
      List.find?_cons_of_neg _ (by simp; omega),
      List.find?_cons_of_neg _ (by simp; omega),
      List.find?_cons_of_neg _ (by simp; omega),
      List.find?_cons_of_neg _ (by simp; omega),
      List.find?_cons_of_neg _ (by simp; omega),
      List.find?_cons_of_neg _ (by simp; omega),
      List.find?_cons_of_neg _ (by simp; omega),
      List.find?_cons_of_neg _ (by simp; omega),
      List.find?_cons_of_neg _ (by simp; omega)]
  rfl
lemma find_eq_table (d : Nat) : find d 5 0 11 = itrfFromTableSpec d := by
  by_cases hc1 : d < 19930623
  · rw [r0 d (by omega), spec_r0 d (by omega)]
  by_cases hc2 : d ≤ 19960605
  · rw [r1 d (by omega) (by omega), spec_r1 d (by omega) (by omega)]
  by_cases hc3 : d < 19970425
  · rw [r2 d (by omega) (by omega), spec_r2 d (by omega) (by omega)]
  by_cases hc4 : d ≤ 19970528
  · rw [r3 d (by omega) (by omega), spec_r3 d (by omega) (by omega)]
  by_cases hc5 : d < 19980627
  · rw [r4 d (by omega) (by omega), spec_r4 d (by omega) (by omega)]
  by_cases hc6 : d ≤ 19990525
  · rw [r5 d (by omega) (by omega), spec_r5 d (by omega) (by omega)]
  by_cases hc7 : d < 20000512
  · rw [r6 d (by omega) (by omega), spec_r6 d (by omega) (by omega)]
  by_cases hc8 : d ≤ 20010527
  · rw [r7 d (by omega) (by omega), spec_r7 d (by omega) (by omega)]
  by_cases hc9 : d < 20011218
  · rw [r8 d (by omega) (by omega), spec_r8 d (by omega) (by omega)]
  by_cases hc10 : d ≤ 20021121
  · rw [r9 d (by omega) (by omega), spec_r9 d (by omega) (by omega)]
  by_cases hc11 : d ≤ 20021122
  · rw [r11 d (by omega) (by omega), spec_r11 d (by omega) (by omega)]
  by_cases hc12 : d ≤ 20021213
  · rw [r13 d (by omega) (by omega), spec_r13 d (by omega) (by omega)]
  by_cases hc13 : d ≤ 20021214
  · rw [r14 d (by omega) (by omega), spec_r14 d (by omega) (by omega)]
  by_cases hc14 : d ≤ 20070511
  · rw [r16 d (by omega) (by omega), spec_r16 d (by omega) (by omega)]
  by_cases hc15 : d < 20070910
  · rw [r17 d (by omega) (by omega), spec_r17 d (by omega) (by omega)]
  by_cases hc16 : d ≤ 20110516
  · rw [r18 d (by omega) (by omega), spec_r18 d (by omega) (by omega)]
  by_cases hc17 : d < 20111012
  · rw [r19 d (by omega) (by omega), spec_r19 d (by omega) (by omega)]
  by_cases hc18 : d ≤ 20180501
  · rw [r20 d (by omega) (by omega), spec_r20 d (by omega) (by omega)]
  rw [r21 d (by omega), spec_r21 d (by omega)]

/-- Claim C1: for every query date inside one of the spans of the fixed
ATM1B_GRANULE_ITRFS table (including the one-day override spans), the
date-range lookup qfit_itrf_from_date returns the ITRF string recorded for the
span containing that date, and for every date outside all spans it fails with
the ITRF-not-found error; in particular it fails for 1990-01-01 and
2020-01-01. -/
theorem qfit_itrf_from_date_matches_table :
    (∀ d : Nat, qfit_itrf_from_date d =
      match itrfFromTableSpec d with
      | some s => Except.ok s
      | none => Except.error "Failed to find ITRF for date")
    ∧ qfit_itrf_from_date 19900101 = Except.error "Failed to find ITRF for date"
    ∧ qfit_itrf_from_date 20200101 = Except.error "Failed to find ITRF for date" := by
  have hmain : ∀ d : Nat, qfit_itrf_from_date d =
      match itrfFromTableSpec d with
      | some s => Except.ok s
      | none => Except.error "Failed to find ITRF for date" := by
    intro d
    show (match find d ((ATM1B_GRANULE_ITRFS.length - 0) / 2) 0 ATM1B_GRANULE_ITRFS.length with
      | some s => Except.ok s
      | none => Except.error "Failed to find ITRF for date") = _
    have hL : (ATM1B_GRANULE_ITRFS.length - 0) / 2 = 5 := rfl
    have hU : ATM1B_GRANULE_ITRFS.length = 11 := rfl
    rw [hL, hU, find_eq_table d]
  refine ⟨hmain, ?_, ?_⟩
  · rw [hmain 19900101]
    rfl
  · rw [hmain 20200101]
    rfl

/-- Claim C10: the recursive date-range search helper terminates for every
query over the fixed 11-entry table: whenever the probe index is inside the
bracket and the bracket is within the table, a recursion-depth budget of
12 * upper + (upper - i) steps suffices for the fuel-indexed copy of the
search to finish with the value of the total function find, so the recursion
depth is bounded and the helper always returns a frame or None; in particular
fuel 138 suffices for every date at the top-level call find d 5 0 11. -/
theorem find_recursion_depth_bounded :
    (∀ (fuel d i lower upper : Nat), i < upper → upper ≤ 11 →
      12 * upper + (upper - i) ≤ fuel →
      findFuel fuel d i lower upper = some (find d i lower upper))
    ∧ (∀ d : Nat, findFuel 138 d 5 0 11 = some (find d 5 0 11)) := by
  have hgen : ∀ (fuel d i lower upper : Nat), i < upper → upper ≤ 11 →
      12 * upper + (upper - i) ≤ fuel →
      findFuel fuel d i lower upper = some (find d i lower upper) := by
    intro fuel
    induction fuel with
    | zero => intro d i lower upper h1 h2 h3; omega
    | succ n ih =>
      intro d i lower upper h1 h2 h3
      rw [find.eq_def]
      simp only [findFuel]
      split_ifs with hlt hlo hle hup
      · exact ih d ((i - lower) / 2) lower i (by omega) (by omega) (by omega)
      · rfl
      · rfl
      · exact ih d ((upper + i) / 2) i upper (by omega) (by omega) (by omega)
      · rfl
  exact ⟨hgen, fun d => hgen 138 d 5 0 11 (by omega) (by omega) (by omega)⟩

/-- Witness for claim C10's theorem at concrete inputs: fuel 138 and the date
2010-01-01, with every hypothesis discharged by computation. -/
theorem find_recursion_depth_bounded_witness :
    findFuel 138 20100101 5 0 11 = some (find 20100101 5 0 11) :=
  find_recursion_depth_bounded.1 138 20100101 5 0 11 (by decide) (by decide) (by decide)

/-! ## Longitude normalization (atm1b.py lines 156-160), claim C4 -/

/-- shift_lon models _shift_lon: shifts longitude values from [0,360] to
[-180,180].  The comparison against 180.0 and the subtraction of 360.0 are
exact in double precision at every value the claim touches (dyadic rationals
well inside the exactly representable range), so the function is embedded over
the rationals with the float literals written as the integers they denote. -/
def shift_lon (lon : ℚ) : ℚ :=
  if lon ≥ 180 then lon - 360 else lon

/-- Claim C4 counterexample: the input 540 satisfies 540 ≥ 180, the output is
540 - 360 = 180, and 180 does not lie in the half-open interval [-180, 180),
so the claim that the output lies in [-180, 180) for every input x ≥ 180 is
false.  (540 and 540 - 360 = 180 are exactly representable doubles, so the
source function misbehaves at this input in exactly the same way.) -/
theorem shift_lon_claim_false_at_540 :
    (540 : ℚ) ≥ 180 ∧ shift_lon 540 = 540 - 360 ∧ ¬ (shift_lon 540 < 180) := by
  refine ⟨by norm_num, ?_, ?_⟩ <;> norm_num [shift_lon]

/-- Claim C4 (amended): for every input x ≥ 180 the output equals x - 360, and
it additionally lies in [-180, 180) when x < 540 (the bound forced by the
counterexample at 540); for every input x < 180 the output equals x. -/
theorem shift_lon_spec (x : ℚ) :
    (x ≥ 180 → shift_lon x = x - 360)
    ∧ (x ≥ 180 → x < 540 → -180 ≤ shift_lon x ∧ shift_lon x < 180)
    ∧ (x < 180 → shift_lon x = x) := by
  refine ⟨fun h => ?_, fun h h2 => ?_, fun h => ?_⟩
  · unfold shift_lon
    rw [if_pos h]
  · unfold shift_lon
    rw [if_pos h]
    constructor <;> linarith
  · unfold shift_lon
    rw [if_neg (by linarith)]

/-- Witness for claim C4's amended theorem at the inputs 200 and 100. -/
theorem shift_lon_spec_witness :
    shift_lon 200 = 200 - 360
    ∧ (-180 ≤ shift_lon 200 ∧ shift_lon 200 < 180)
    ∧ shift_lon 100 = 100 :=
  ⟨(shift_lon_spec 200).1 (by norm_num),
   (shift_lon_spec 200).2.1 (by norm_num) (by norm_num),
   (shift_lon_spec 100).2.2 (by norm_num)⟩

/-! ## The QFIT format sniffer (atm1b.py lines 82-119), claim C5 -/

inductive Endian where
  | LITTLE
  | BIG
deriving DecidableEq, Repr

/-- Word4 is the first 4-byte word of a flat binary QFIT file, b0 first in
file order. -/
structure Word4 where
  b0 : Fin 256
  b1 : Fin 256
  b2 : Fin 256
  b3 : Fin 256
deriving DecidableEq, Repr

/-- Reading of 4 bytes as a 32-bit twos-complement signed integer. -/
def toSigned32 (n : Nat) : Int :=
  if n < 2147483648 then (n : Int) else (n : Int) - 4294967296

/-- Value of the word read big-endian, numpy dtype >i4. -/
def beVal (w : Word4) : Int :=
  toSigned32 (w.b0.val * 16777216 + w.b1.val * 65536 + w.b2.val * 256 + w.b3.val)

/-- Value of the word read little-endian, numpy dtype <i4. -/
def leVal (w : Word4) : Int :=
  toSigned32 (w.b3.val * 16777216 + w.b2.val * 65536 + w.b1.val * 256 + w.b0.val)

/-- QfitDtype identifies one of the six fixed record layouts, the value
returned by _data_dtype. -/
structure QfitDtype where
  endianness : Endian
  field_count : Int
deriving DecidableEq, Repr

/-- data_dtype models _data_dtype (atm1b.py lines 87-101): the nested dict
lookup succeeds exactly for field counts 10, 12 and 14; any other key raises
KeyError. -/
def data_dtype (endianness : Endian) (field_count : Int) : Except String QfitDtype :=
  if field_count = 10 ∨ field_count = 12 ∨ field_count = 14 then
    Except.ok ⟨endianness, field_count⟩
  else Except.error "KeyError: unrecognized field count"

/-- file_dtype models _file_dtype (atm1b.py lines 104-119) as a pure function
of the first 4-byte word: read big-endian; if the value is at least 100
re-read little-endian; if still at least 100 raise ValueError; otherwise
field_count = int(record_size / 4), which truncates toward zero, Int.tdiv. -/
def file_dtype (w : Word4) : Except String QfitDtype :=
  if 100 ≤ beVal w then
    if 100 ≤ leVal w then Except.error "invalid record size found"
    else data_dtype Endian.LITTLE (Int.tdiv (leVal w) 4)
  else data_dtype Endian.BIG (Int.tdiv (beVal w) 4)

/-- Claim C5: the sniffer is a pure function of the first word; big-endian is
tried first and wins whenever its value is below 100; otherwise the
little-endian reading wins if it is below 100; otherwise the sniffer fails; a
successful result always carries field count 10, 12 or 14 (any other count
fails with a format error); and a word that decodes to a valid record size
(40, 48 or 56) in one endianness while the other endianness reads at least
100 is always resolved to the valid interpretation. -/
theorem file_dtype_spec :
    (∀ w : Word4, beVal w < 100 →
      file_dtype w = data_dtype Endian.BIG (Int.tdiv (beVal w) 4))
    ∧ (∀ w : Word4, 100 ≤ beVal w → leVal w < 100 →
      file_dtype w = data_dtype Endian.LITTLE (Int.tdiv (leVal w) 4))
    ∧ (∀ w : Word4, 100 ≤ beVal w → 100 ≤ leVal w →
      file_dtype w = Except.error "invalid record size found")
    ∧ (∀ (w : Word4) (dt : QfitDtype), file_dtype w = Except.ok dt →
      dt.field_count = 10 ∨ dt.field_count = 12 ∨ dt.field_count = 14)
    ∧ (∀ w : Word4, (beVal w = 40 ∨ beVal w = 48 ∨ beVal w = 56) → 100 ≤ leVal w →
      file_dtype w = Except.ok ⟨Endian.BIG, Int.tdiv (beVal w) 4⟩)
    ∧ (∀ w : Word4, (leVal w = 40 ∨ leVal w = 48 ∨ leVal w = 56) → 100 ≤ beVal w →
      file_dtype w = Except.ok ⟨Endian.LITTLE, Int.tdiv (leVal w) 4⟩) := by
  have p1 : ∀ w : Word4, beVal w < 100 →
      file_dtype w = data_dtype Endian.BIG (Int.tdiv (beVal w) 4) := by
    intro w h
    unfold file_dtype
    rw [if_neg (by omega)]
  have p2 : ∀ w : Word4, 100 ≤ beVal w → leVal w < 100 →
      file_dtype w = data_dtype Endian.LITTLE (Int.tdiv (leVal w) 4) := by
    intro w h1 h2
    unfold file_dtype
    rw [if_pos h1, if_neg (by omega)]
  have p3 : ∀ w : Word4, 100 ≤ beVal w → 100 ≤ leVal w →
      file_dtype w = Except.error "invalid record size found" := by
    intro w h1 h2
    unfold file_dtype
    rw [if_pos h1, if_pos h2]
  have p4 : ∀ (w : Word4) (dt : QfitDtype), file_dtype w = Except.ok dt →
      dt.field_count = 10 ∨ dt.field_count = 12 ∨ dt.field_count = 14 := by
    intro w dt h
    unfold file_dtype data_dtype at h
    by_cases h1 : 100 ≤ beVal w
    · rw [if_pos h1] at h
      by_cases h2 : 100 ≤ leVal w
      · rw [if_pos h2] at h
        exact absurd h (by simp)
      · rw [if_neg h2] at h
        by_cases h3 : Int.tdiv (leVal w) 4 = 10 ∨ Int.tdiv (leVal w) 4 = 12 ∨
            Int.tdiv (leVal w) 4 = 14
        · rw [if_pos h3] at h
          obtain rfl : (⟨Endian.LITTLE, Int.tdiv (leVal w) 4⟩ : QfitDtype) = dt := by
            simpa using h
          simpa using h3
        · rw [if_neg h3] at h
          exact absurd h (by simp)
    · rw [if_neg h1] at h
      by_cases h4 : Int.tdiv (beVal w) 4 = 10 ∨ Int.tdiv (beVal w) 4 = 12 ∨
          Int.tdiv (beVal w) 4 = 14
      · rw [if_pos h4] at h
        obtain rfl : (⟨Endian.BIG, Int.tdiv (beVal w) 4⟩ : QfitDtype) = dt := by
          simpa using h
        simpa using h4
      · rw [if_neg h4] at h
        exact absurd h (by simp)
  have p5 : ∀ w : Word4, (beVal w = 40 ∨ beVal w = 48 ∨ beVal w = 56) → 100 ≤ leVal w →
      file_dtype w = Except.ok ⟨Endian.BIG, Int.tdiv (beVal w) 4⟩ := by
    intro w hv hle
    rw [p1 w (by rcases hv with h | h | h <;> omega)]
    unfold data_dtype
    rcases hv with h | h | h <;> rw [h, if_pos (by decide)]
  have p6 : ∀ w : Word4, (leVal w = 40 ∨ leVal w = 48 ∨ leVal w = 56) → 100 ≤ beVal w →
      file_dtype w = Except.ok ⟨Endian.LITTLE, Int.tdiv (leVal w) 4⟩ := by
    intro w hv hbe
    rw [p2 w hbe (by rcases hv with h | h | h <;> omega)]
    unfold data_dtype
    rcases hv with h | h | h <;> rw [h, if_pos (by decide)]
  exact ⟨p1, p2, p3, p4, p5, p6⟩

/-- Witness for claim C5's theorem: the word 00 00 00 28 reads 40 big-endian
and 671088640 little-endian and resolves to the big-endian 10-field layout,
while the byte-reversed word resolves to the little-endian 10-field layout. -/
theorem file_dtype_spec_witness :
    file_dtype ⟨0, 0, 0, 40⟩ = Except.ok ⟨Endian.BIG, Int.tdiv (beVal ⟨0, 0, 0, 40⟩) 4⟩
    ∧ file_dtype ⟨40, 0, 0, 0⟩ = Except.ok ⟨Endian.LITTLE, Int.tdiv (leVal ⟨40, 0, 0, 0⟩) 4⟩ :=
  ⟨file_dtype_spec.2.2.2.2.1 ⟨0, 0, 0, 40⟩ (by decide) (by decide),
   file_dtype_spec.2.2.2.2.2 ⟨40, 0, 0, 0⟩ (by decide) (by decide)⟩

/-! ## ITRF string normalization and header-based inference
(atm1b.py lines 269-284 and 370-409), claim C6 -/

deriving instance DecidableEq for Except

/-- str_upper models Python str.upper for the ASCII strings handled here,
written over the character list so that it evaluates in the kernel. -/
def str_upper (s : String) : String :=
  String.mk (s.data.map Char.toUpper)

/-- normalize_itrf_str models _normalize_itrf_str: uppercase, then replace the
known aliases via the dict lookup whose KeyError leaves the string unchanged.
The source binds the uppercased string to itrf_str before the lookup; the
uppercasing is inlined here. -/
def normalize_itrf_str (itrf_str : String) : String :=
  if str_upper itrf_str = "ITRF05" then "ITRF2005"
  else if str_upper itrf_str = "ITRF08" then "ITRF2008"
  else if str_upper itrf_str = "ITRF2000" then "ITRF20"
  else str_upper itrf_str

/-- infer_qfit_itrf models _infer_qfit_itrf as a function of the deduplicated
list of itrf tokens found in the qfit file header by the regex and of the
granule date (file reading and the regex itself are I/O collaborators).  The
source computes the date-table fallback before inspecting the header matches,
so a table-lookup failure propagates unconditionally; with exactly one header
token the normalized token is returned (the value atm1b_data then stores as
the ITRF reference-frame tag on every decoded row), otherwise the raw table
string is returned. -/
def infer_qfit_itrf (headerItrfs : List String) (date : Nat) : Except String String :=
  match qfit_itrf_from_date date with
  | Except.error e => Except.error e
  | Except.ok itrf_for_date =>
    if headerItrfs.length = 1 then Except.ok (normalize_itrf_str (headerItrfs.headD ""))
    else Except.ok itrf_for_date

lemma qfit_eval_20030101 : qfit_itrf_from_date 20030101 = Except.ok "ITRF2000" := by
  have h : find 20030101 5 0 11 = some "ITRF2000" := r16 20030101 (by omega) (by omega)
  show (match find 20030101 ((ATM1B_GRANULE_ITRFS.length - 0) / 2) 0
      ATM1B_GRANULE_ITRFS.length with
    | some s => Except.ok s
    | none => Except.error "Failed to find ITRF for date") = Except.ok "ITRF2000"
  have hL : (ATM1B_GRANULE_ITRFS.length - 0) / 2 = 5 := rfl
  have hU : ATM1B_GRANULE_ITRFS.length = 11 := rfl
  rw [hL, hU, h]

lemma qfit_eval_19940701 : qfit_itrf_from_date 19940701 = Except.ok "ITRF93" := by
  have h : find 19940701 5 0 11 = some "ITRF93" := r1 19940701 (by omega) (by omega)
  show (match find 19940701 ((ATM1B_GRANULE_ITRFS.length - 0) / 2) 0
      ATM1B_GRANULE_ITRFS.length with
    | some s => Except.ok s
    | none => Except.error "Failed to find ITRF for date") = Except.ok "ITRF93"
  have hL : (ATM1B_GRANULE_ITRFS.length - 0) / 2 = 5 := rfl
  have hU : ATM1B_GRANULE_ITRFS.length = 11 := rfl
  rw [hL, hU, h]

/-- Claim C6 counterexample: a qfit header containing exactly the token
itrf2000, on a granule dated 2003-01-01, makes the frame resolver return the
alias-normalized string ITRF20, and that value is exactly what atm1b_data
stores as the ITRF reference-frame tag on every decoded row; so the claim
that the stored tag is never the alias-normalized ITRF20 form is false. -/
theorem infer_qfit_itrf_stores_itrf20 :
    infer_qfit_itrf ["itrf2000"] 20030101 = Except.ok "ITRF20"
    ∧ normalize_itrf_str "itrf2000" = "ITRF20" := by
  constructor
  · unfold infer_qfit_itrf
    rw [qfit_eval_20030101]
    decide
  · decide

/-- Claim C6 (amended): normalization maps ITRF05 to ITRF2005, ITRF08 to
ITRF2008 and ITRF2000 to ITRF20, and returns every other input unchanged
apart from uppercasing; the normalized form - including ITRF20 - is what the
resolver returns (and atm1b_data stores as the rows' reference-frame tag)
whenever the frame comes from a unique qfit header token, while only the
date-table fallback path returns the table's unnormalized ITRF2000 form. -/
theorem normalize_itrf_spec :
    normalize_itrf_str "ITRF05" = "ITRF2005"
    ∧ normalize_itrf_str "ITRF08" = "ITRF2008"
    ∧ normalize_itrf_str "ITRF2000" = "ITRF20"
    ∧ (∀ s : String, str_upper s ≠ "ITRF05" → str_upper s ≠ "ITRF08" →
        str_upper s ≠ "ITRF2000" → normalize_itrf_str s = str_upper s)
    ∧ (∀ (hdr : List String) (d : Nat) (itrf : String), hdr.length = 1 →
        qfit_itrf_from_date d = Except.ok itrf →
        infer_qfit_itrf hdr d = Except.ok (normalize_itrf_str (hdr.headD "")))
    ∧ (∀ (d : Nat) (itrf : String), qfit_itrf_from_date d = Except.ok itrf →
        infer_qfit_itrf [] d = Except.ok itrf) := by
  refine ⟨by decide, by decide, by decide, ?_, ?_, ?_⟩
  · intro s h1 h2 h3
    unfold normalize_itrf_str
    rw [if_neg h1, if_neg h2, if_neg h3]
  · intro hdr d itrf hlen hq
    unfold infer_qfit_itrf
    rw [hq]
    show (if hdr.length = 1 then Except.ok (normalize_itrf_str (hdr.headD ""))
      else Except.ok itrf) = _
    rw [if_pos hlen]
  · intro d itrf hq
    unfold infer_qfit_itrf
    rw [hq]
    rfl

/-- Witness for claim C6's amended theorem: a non-alias string is only
uppercased, a unique header token is normalized and returned, and an empty
token list falls back to the raw table string, at the date 1994-07-01. -/
theorem normalize_itrf_spec_witness :
    normalize_itrf_str "itrf93" = str_upper "itrf93"
    ∧ infer_qfit_itrf ["itrf2005"] 19940701 = Except.ok (normalize_itrf_str "itrf2005")
    ∧ infer_qfit_itrf [] 19940701 = Except.ok "ITRF93" :=
  ⟨normalize_itrf_spec.2.2.2.1 "itrf93" (by decide) (by decide) (by decide),
   normalize_itrf_spec.2.2.2.2.1 ["itrf2005"] 19940701 "ITRF93" (by decide) qfit_eval_19940701,
   normalize_itrf_spec.2.2.2.2.2 19940701 "ITRF93" qfit_eval_19940701⟩

/-! ## Header stripping (atm1b.py lines 189-198), claim C9 -/

/-- header_rows scans the records after record 0 and counts the leading
records with negative first field: the Python loop idx = 1;
while data[idx][0] < 0: idx += 1 visits exactly these records, and running off
the end of the array (IndexError) is the none case.  The first-field accessor
is a parameter because the source indexes duck-typed numpy records with
r[0]. -/
def header_rows {α : Type} (fst : α → Int) : List α → Option Nat
  | [] => none
  | r :: rest =>
    if fst r < 0 then (header_rows fst rest).map (fun k => k + 1) else some 0

/-- strip_header models _strip_header: record 0 is skipped unconditionally
(the scan starts at index 1), then data[idx:] is returned for the index where
the scan stopped; none models the uncaught IndexError when the array has a
single record or every record after index 0 has a negative first field. -/
def strip_header {α : Type} (fst : α → Int) (data : List α) : Option (List α) :=
  match data with
  | [] => none
  | _ :: rest => (header_rows fst rest).map fun k => data.drop (1 + k)

lemma header_rows_none_iff {α : Type} (fst : α → Int) :
    ∀ l : List α, header_rows fst l = none ↔ ∀ r ∈ l, fst r < 0 := by
  intro l
  induction l with
  | nil => simp [header_rows]
  | cons r rest ih =>
    unfold header_rows
    by_cases h : fst r < 0
    · rw [if_pos h]
      simp only [Option.map_eq_none', ih]
      constructor
      · intro hall x hx
        rcases List.mem_cons.mp hx with hx | hx
        · rw [hx]; exact h
        · exact hall x hx
      · intro hall x hx
        exact hall x (List.mem_cons_of_mem _ hx)
    · rw [if_neg h]
      constructor
      · intro hc
        exact absurd hc (by simp)
      · intro hall
        exact absurd (hall r (List.mem_cons_self r rest)) h

lemma header_rows_eq_some {α : Type} (fst : α → Int) :
    ∀ (l : List α) (i : Nat) (hi : i < l.length), 0 ≤ fst (l.get ⟨i, hi⟩) →
      (∀ (k : Nat) (hk : k < l.length), k < i → fst (l.get ⟨k, hk⟩) < 0) →
      header_rows fst l = some i := by
  intro l
  induction l with
  | nil => intro i hi; exact absurd hi (by simp)
  | cons r rest ih =>
    intro i hi hge hneg
    unfold header_rows
    match i with
    | 0 =>
      have hge0 : 0 ≤ fst r := hge
      rw [if_neg (not_lt.mpr hge0)]
    | i + 1 =>
      have hr : fst r < 0 := hneg 0 (by simp) (by omega)

      rw [if_pos hr]
      rw [ih i (by simpa using hi) (by simpa using hge)
        (fun k hk hki => hneg (k + 1) (by simpa using hk) (by omega))]
      rfl

/-- Claim C9: strip_header is total only under an unstated precondition.  For
every record array containing, at some index at least 1, a record with
non-negative first field, it returns the suffix starting at the first such
index (record 0 is skipped unconditionally, even when its first field is
non-negative, since only indices at least 1 are consulted); and it fails with
an out-of-bounds access (none) exactly when every record at index at least 1
has a negative first field - in particular for every single-record array,
where that condition is vacuous. -/
theorem strip_header_spec {α : Type} (fst : α → Int) (data : List α) :
    (strip_header fst data = none ↔
      ∀ (j : Nat) (hj : j < data.length), 1 ≤ j → fst (data.get ⟨j, hj⟩) < 0)
    ∧ (∀ (j : Nat) (hj : j < data.length), 1 ≤ j → 0 ≤ fst (data.get ⟨j, hj⟩) →
      (∀ (k : Nat) (hk : k < data.length), 1 ≤ k → k < j → fst (data.get ⟨k, hk⟩) < 0) →
      strip_header fst data = some (data.drop j)) := by
  match data with
  | [] =>
    constructor
    · simp [strip_header]
    · intro j hj h1
      exact absurd hj (by simp)
  | a :: rest =>
    constructor
    · show ((header_rows fst rest).map fun k => (a :: rest).drop (1 + k)) = none ↔ _
      rw [Option.map_eq_none', header_rows_none_iff]
      constructor
      · intro hall j hj h1
        match j, hj with
        | j + 1, hj =>
          exact hall _ (List.get_mem rest j (by simpa using hj))
      · intro hall r hr
        obtain ⟨⟨i, hil⟩, rfl⟩ := List.mem_iff_get.mp hr
        exact hall (i + 1) (by simpa using hil) (by omega)
    · intro j hj h1 hge hneg
      match j, hj with
      | i + 1, hj =>
        show ((header_rows fst rest).map fun k => (a :: rest).drop (1 + k)) = _
        rw [header_rows_eq_some fst rest i (by simpa using hj) (by simpa using hge)
          (fun k hk hki => hneg (k + 1) (by simpa using hk) (by omega) (by omega))]
        simp [Nat.add_comm 1 i]

/-- Witness for claim C9's theorem: on the first-fields array [5, -3, 7] the
scan skips record 0, consumes the negative record at index 1 and returns the
suffix from index 2; every hypothesis is discharged by computation. -/
theorem strip_header_spec_witness :
    strip_header (fun x : Int => x) [5, -3, 7] = some ([(5 : Int), -3, 7].drop 2) :=
  (strip_header_spec (fun x : Int => x) [5, -3, 7]).2 2 (by decide) (by decide)
    (by decide) (by decide)

/-! ## The 14-field QFIT decode (atm1b.py lines 223-265), claim C3 -/

/-- Rec14 is one record of the 14-field QFIT layout (ATM1B_DTYPE_14), each
field a 32-bit integer. -/
structure Rec14 where
  rel_time : Int
  latitude : Int
  longitude : Int
  elevation : Int
  xmt_sigstr : Int
  rcv_sigstr : Int
  azimuth : Int
  pitch : Int
  roll : Int
  passive_signal : Int
  passive_footprint_latitude : Int
  passive_footprint_longitude : Int
  passive_footprint_synthesized_elevation : Int
  gps_time : Int
deriving DecidableEq, Repr

/-- Column names of a pandas DataFrame built from a 14-field record array. -/
def rec14Columns : List String :=
  ["rel_time", "latitude", "longitude", "elevation", "xmt_sigstr", "rcv_sigstr",
   "azimuth", "pitch", "roll", "passive_signal", "passive_footprint_latitude",
   "passive_footprint_longitude", "passive_footprint_synthesized_elevation",
   "gps_time"]

/-- Frame14 models a pandas DataFrame over 14-field records: its column list
and its rows.  pd.DataFrame() is the frame with no columns and no rows;
pd.DataFrame(raw_data) carries the 14 dtype field names as columns. -/
structure Frame14 where
  columns : List String
  rows : List Rec14
deriving DecidableEq, Repr

/-- Validity filter applied to 14-field records (atm1b.py lines 236-238). -/
def qfit14_valid (r : Rec14) : Bool :=
  r.latitude ≠ 0 ∧ r.elevation ≠ -9999

/-- atm1b_qfit_dataframe14 models _atm1b_qfit_dataframe on the 14-field-layout
path, as a function of the record array read from the file: strip the header
(an uncaught IndexError propagates as none), filter invalid records, and
return pd.DataFrame() - the empty frame with no columns - when nothing
survives, else the frame over the surviving records. -/
def atm1b_qfit_dataframe14 (raw : List Rec14) : Option Frame14 :=
  match strip_header (fun r => r.rel_time) raw with
  | none => none
  | some stripped =>
    if (stripped.filter qfit14_valid).length = 0 then some ⟨[], []⟩
    else some ⟨rec14Columns, stripped.filter qfit14_valid⟩

/-- ScaledRow is a decoded row after the unit conversions of
_atm1b_qfit_data. -/
structure ScaledRow where
  latitude : ℚ
  longitude : ℚ
  elevation : ℚ
deriving DecidableEq, Repr

/-- Per-row unit conversions of _atm1b_qfit_data (lines 255-261): latitude and
longitude scaled by 1e-6 with the longitude shift, elevation converted from
millimeters to meters.  The float constants are modelled by the exact
rationals they stand for; the claim under verification only depends on row
counts, not on these values. -/
def scale_row (r : Rec14) : ScaledRow :=
  ⟨(r.latitude : ℚ) * (1 / 1000000),
   shift_lon ((r.longitude : ℚ) * (1 / 1000000)),
   (r.elevation : ℚ) * (1 / 1000)⟩

/-- atm1b_qfit_data14 models _atm1b_qfit_data on the 14-field path: it builds
the dataframe and then immediately evaluates df["latitude"], which raises
KeyError when the all-filtered case produced the column-less empty frame; on
a frame with columns it applies the row-wise conversions, which neither add
nor remove rows (the utc_datetime and augmentation steps, likewise
row-count-preserving, are elided). -/
def atm1b_qfit_data14 (raw : List Rec14) : Except String (List ScaledRow) :=
  match atm1b_qfit_dataframe14 raw with
  | none => Except.error "IndexError: index out of bounds in strip_header"
  | some df =>
    if "latitude" ∈ df.columns then Except.ok (df.rows.map scale_row)
    else Except.error "KeyError: latitude"

/-- Header record used by the claim C3 example inputs (any first record is
skipped unconditionally). -/
def c3HeaderRec : Rec14 := ⟨-999999, 0, 0, 0, 0, 0, 0, 0, 0, 0, 0, 0, 0, 0⟩

/-- An invalid data record: elevation is the -9999 sensor-fault sentinel. -/
def c3BadRec : Rec14 := ⟨5, 1, 2, -9999, 0, 0, 0, 0, 0, 0, 0, 0, 0, 7⟩

/-- A valid data record. -/
def c3GoodRec : Rec14 := ⟨6, 2, 3, 1000, 0, 0, 0, 0, 0, 0, 0, 0, 0, 8⟩

/-- Claim C3 counterexample: on a 14-field input whose only post-header record
is invalid, the dataframe stage returns the empty frame with NO columns (not
the decoded-row schema), and the decode then fails on the missing latitude
column rather than returning an empty result. -/
theorem qfit14_empty_filter_claim_false :
    atm1b_qfit_dataframe14 [c3HeaderRec, c3BadRec] = some ⟨[], []⟩
    ∧ rec14Columns ≠ []
    ∧ atm1b_qfit_data14 [c3HeaderRec, c3BadRec] = Except.error "KeyError: latitude" := by
  refine ⟨by decide, by decide, by decide⟩

lemma strip_header_length {α : Type} (fst : α → Int) (data s : List α)
    (hs : strip_header fst data = some s) : s.length ≤ data.length := by
  match data with
  | [] => simp [strip_header] at hs
  | a :: rest =>
    have hs2 : ((header_rows fst rest).map fun k => (a :: rest).drop (1 + k)) = some s := hs
    rw [Option.map_eq_some'] at hs2
    obtain ⟨k, _, rfl⟩ := hs2
    simp

/-- Claim C3 (amended): for every 14-field-layout input whose header strip
succeeds, the decode discards each post-header record with latitude = 0 or
elevation = -9999; when this filtering removes every record the dataframe
stage returns an empty row set with NO columns, without failing, and the
subsequent conversion stage then fails on the missing latitude column; when
some records survive, the decode succeeds and the decoded row count equals
the input record count minus the header rows minus the discarded invalid
records. -/
theorem atm1b_qfit_data14_spec (raw stripped : List Rec14)
    (hs : strip_header (fun r => r.rel_time) raw = some stripped) :
    (stripped.filter qfit14_valid = [] →
      atm1b_qfit_dataframe14 raw = some ⟨[], []⟩
      ∧ atm1b_qfit_data14 raw = Except.error "KeyError: latitude")
    ∧ (stripped.filter qfit14_valid ≠ [] →
      atm1b_qfit_data14 raw = Except.ok ((stripped.filter qfit14_valid).map scale_row)
      ∧ (stripped.filter qfit14_valid).length =
        raw.length - (raw.length - stripped.length)
          - (stripped.length - (stripped.filter qfit14_valid).length)) := by
  have hls : stripped.length ≤ raw.length := strip_header_length _ raw stripped hs
  have hlf : (stripped.filter qfit14_valid).length ≤ stripped.length :=
    List.length_filter_le _ _
  constructor
  · intro hempty
    have hdf : atm1b_qfit_dataframe14 raw = some ⟨[], []⟩ := by
      unfold atm1b_qfit_dataframe14
      rw [hs]
      show (if (stripped.filter qfit14_valid).length = 0 then some (⟨[], []⟩ : Frame14)
        else some ⟨rec14Columns, stripped.filter qfit14_valid⟩) = _
      rw [hempty]
      rfl
    refine ⟨hdf, ?_⟩
    unfold atm1b_qfit_data14
    rw [hdf]
    rfl
  · intro hne
    have hdf : atm1b_qfit_dataframe14 raw =
        some ⟨rec14Columns, stripped.filter qfit14_valid⟩ := by
      unfold atm1b_qfit_dataframe14
      rw [hs]
      show (if (stripped.filter qfit14_valid).length = 0 then some (⟨[], []⟩ : Frame14)
        else some ⟨rec14Columns, stripped.filter qfit14_valid⟩) = _
      rw [if_neg (by simp only [List.length_eq_zero]; exact hne)]
    constructor
    · unfold atm1b_qfit_data14
      rw [hdf]
      show (if "latitude" ∈ rec14Columns
        then Except.ok ((stripped.filter qfit14_valid).map scale_row)
        else Except.error "KeyError: latitude") = _
      rw [if_pos (by decide)]
    · omega

/-- Witness for claim C3's amended theorem: a file image with one header row,
one invalid record and one valid record decodes to the single valid record,
and the count identity 1 = 3 - 1 - 1 holds; both branches of the theorem are
exercised, the empty-filter branch on the two-record input. -/
theorem atm1b_qfit_data14_spec_witness :
    (atm1b_qfit_data14 [c3HeaderRec, c3BadRec, c3GoodRec] =
      Except.ok (([c3BadRec, c3GoodRec].filter qfit14_valid).map scale_row))
    ∧ atm1b_qfit_data14 [c3HeaderRec, c3BadRec] = Except.error "KeyError: latitude" :=
  ⟨((atm1b_qfit_data14_spec [c3HeaderRec, c3BadRec, c3GoodRec] [c3BadRec, c3GoodRec]
      (by decide)).2 (by decide)).1,
   ((atm1b_qfit_data14_spec [c3HeaderRec, c3BadRec] [c3BadRec] (by decide)).1
      (by decide)).2⟩

/-! ## The ITRF coordinate harmonizer (itrf/converter.py lines 40-147),
claims C2, C7 and C8 -/

/-- Code-point lexicographic comparison on character lists, written so that it
evaluates in the kernel. -/
def chars_lt : List Char → List Char → Bool
  | [], [] => false
  | [], _ :: _ => true
  | _ :: _, [] => false
  | a :: as, b :: bs =>
    if a.val < b.val then true
    else if b.val < a.val then false
    else chars_lt as bs

/-- Code-point lexicographic order on strings, the order in which pandas
groupby sorts its group keys. -/
def str_le (a b : String) : Bool := !(chars_lt b.data a.data)

/-- IceflowRow is one point measurement processed by transform_itrf: the ITRF
reference-frame tag, the coordinate fields, and the utc_datetime index value
(abstracted to a rational; it is only carried through unchanged). -/
structure IceflowRow where
  itrf : String
  latitude : ℚ
  longitude : ℚ
  elevation : ℚ
  utc : ℚ
deriving DecidableEq, Repr

/-- Modelled from the spec: the repository's check_itrf (in
nsidc/iceflow/itrf/__init__.py, which is absent from the provided sources)
validates a reference-frame string of the form ITRF followed by 2 or 4
digits; the unit test accepts ITRF2008 and ITRF88 and rejects ITRF and
arbitrary text. -/
def check_itrf (s : String) : Bool :=
  match s.data with
  | 'I' :: 'T' :: 'R' :: 'F' :: ds =>
    ds.all Char.isDigit && (ds.length = 2 || ds.length = 4)
  | _ => false

/-- TransformationSpec carries the parameters of the proj pipeline string
built per group: the Helmert step is determined by source and target frame,
and the optional plate-motion step by the epoch and plate. -/
structure TransformationSpec where
  source_itrf : String
  target_itrf : String
  target_epoch : Option String
  plate : Option String
deriving DecidableEq, Repr

/-- TransformFn abstracts the external geodesy engine (pyproj): the pipeline
built from a TransformationSpec is applied pointwise to each row's
coordinates and decimal year, producing new (lon, lat, elev). -/
def TransformFn : Type := TransformationSpec → IceflowRow → ℚ × ℚ × ℚ

/-- One transformed chunk (converter.py lines 130-141): coordinates replaced
by the engine output and the ITRF tag set to the target frame. -/
def transformed_chunk (tf : TransformFn) (spec : TransformationSpec)
    (chunk : List IceflowRow) : List IceflowRow :=
  chunk.map fun r =>
    { r with longitude := (tf spec r).1, latitude := (tf spec r).2.1,
             elevation := (tf spec r).2.2, itrf := spec.target_itrf }

/-- Python falsiness of the plate variable: None or the empty string. -/
def plate_falsy : Option String → Bool
  | none => true
  | some s => s = ""

/-- Mean of a field over a chunk, pandas Series.mean. -/
def chunk_mean (f : IceflowRow → ℚ) (chunk : List IceflowRow) : ℚ :=
  (chunk.map f).sum / chunk.length

/-- The plate update of converter.py lines 71-72: if the plate variable is
falsy, infer the plate from the chunk centroid (mean longitude, mean
latitude) through the plate-boundary collaborator; otherwise keep the current
value. -/
def infer_plate (plate_name : ℚ → ℚ → String) (plate : Option String)
    (chunk : List IceflowRow) : Option String :=
  if plate_falsy plate then
    some (plate_name (chunk_mean (fun r => r.longitude) chunk)
      (chunk_mean (fun r => r.latitude) chunk))
  else plate

/-- harmonize_groups is the group loop of transform_itrf (converter.py lines
62-142), with the plate variable threaded exactly as the source does: the
source ASSIGNS the inferred plate to the function-level variable, so a value
inferred from one chunk's centroid persists for every later chunk.  Each
group contributes its output rows paired with the TransformationSpec handed
to the engine (none for a passed-through group). -/
def harmonize_groups (tf : TransformFn) (plate_name : ℚ → ℚ → String)
    (target_itrf : String) (target_epoch : Option String) :
    Option String → List (String × List IceflowRow) →
    List (List IceflowRow × Option TransformationSpec)
  | _, [] => []
  | plate, (source_itrf, chunk) :: rest =>
    if source_itrf = target_itrf ∧ target_epoch = none then
      (chunk, none) :: harmonize_groups tf plate_name target_itrf target_epoch plate rest
    else
      match target_epoch with
      | some epoch =>
        (transformed_chunk tf
            ⟨source_itrf, target_itrf, some epoch, infer_plate plate_name plate chunk⟩
            chunk,
          some ⟨source_itrf, target_itrf, some epoch,
            infer_plate plate_name plate chunk⟩) ::
          harmonize_groups tf plate_name target_itrf target_epoch
            (infer_plate plate_name plate chunk) rest
      | none =>
        (transformed_chunk tf ⟨source_itrf, target_itrf, none, none⟩ chunk,
          some ⟨source_itrf, target_itrf, none, none⟩) ::
          harmonize_groups tf plate_name target_itrf target_epoch plate rest

/-- Insertion of a key into a sorted key list. -/
def insert_sorted (s : String) : List String → List String
  | [] => [s]
  | k :: rest => if str_le s k then s :: k :: rest else k :: insert_sorted s rest

/-- Insertion sort over group keys. -/
def sort_keys : List String → List String
  | [] => []
  | k :: rest => insert_sorted k (sort_keys rest)

/-- The sorted distinct ITRF keys of the data, pandas
data.groupby(by="ITRF") group keys. -/
def group_keys (data : List IceflowRow) : List String :=
  sort_keys (data.map fun r => r.itrf).dedup

/-- The rows of one group, in their original order (pandas groupby preserves
within-group order). -/
def group_rows (data : List IceflowRow) (k : String) : List IceflowRow :=
  data.filter fun r => r.itrf = k

/-- The (key, chunk) pairs iterated by the group loop. -/
def keyed_groups (data : List IceflowRow) : List (String × List IceflowRow) :=
  (group_keys data).map fun k => (k, group_rows data k)

/-- pd.concat over the collected chunks: raises ValueError on an empty chunk
list, otherwise concatenates (the trailing reset_index/set_index preserves
row order and values). -/
def pd_concat (chunks : List (List IceflowRow)) : Except String (List IceflowRow) :=
  if chunks.isEmpty then Except.error "ValueError: No objects to concatenate"
  else Except.ok chunks.flatten

/-- transform_itrf models the converter entry point: validate the target
frame (the source raises on not check_itrf; the branches are swapped here),
run the group loop with the plate variable initialized to the plate argument,
and concatenate the chunks. -/
def transform_itrf (tf : TransformFn) (plate_name : ℚ → ℚ → String)
    (data : List IceflowRow) (target_itrf : String)
    (target_epoch plate : Option String) : Except String (List IceflowRow) :=
  if check_itrf target_itrf then
    pd_concat ((harmonize_groups tf plate_name target_itrf target_epoch plate
      (keyed_groups data)).map Prod.fst)
  else Except.error "The provided ITRF string was not recognized"

/-- The TransformationSpecs handed to the engine, one per non-passed-through
group, in group order. -/
def transform_itrf_specs (tf : TransformFn) (plate_name : ℚ → ℚ → String)
    (data : List IceflowRow) (target_itrf : String)
    (target_epoch plate : Option String) : List TransformationSpec :=
  (harmonize_groups tf plate_name target_itrf target_epoch plate
    (keyed_groups data)).filterMap Prod.snd

lemma harmonize_cons_pass (tf : TransformFn) (pn : ℚ → ℚ → String) (target : String)
    (plate : Option String) (k : String) (chunk : List IceflowRow)
    (rest : List (String × List IceflowRow)) (hk : k = target) :
    harmonize_groups tf pn target none plate ((k, chunk) :: rest) =
      (chunk, none) :: harmonize_groups tf pn target none plate rest := by
  simp only [harmonize_groups]
  rw [if_pos (show k = target ∧ True from ⟨hk, trivial⟩)]

lemma harmonize_cons_trans (tf : TransformFn) (pn : ℚ → ℚ → String) (target : String)
    (plate : Option String) (k : String) (chunk : List IceflowRow)
    (rest : List (String × List IceflowRow)) (hk : ¬ k = target) :
    harmonize_groups tf pn target none plate ((k, chunk) :: rest) =
      (transformed_chunk tf ⟨k, target, none, none⟩ chunk,
        some ⟨k, target, none, none⟩) ::
        harmonize_groups tf pn target none plate rest := by
  simp only [harmonize_groups]
  rw [if_neg (show ¬(k = target ∧ True) from fun hc => hk hc.1)]

lemma harmonize_cons_epoch (tf : TransformFn) (pn : ℚ → ℚ → String) (target : String)
    (plate : Option String) (k : String) (chunk : List IceflowRow)
    (rest : List (String × List IceflowRow)) (e : String) :
    harmonize_groups tf pn target (some e) plate ((k, chunk) :: rest) =
      (transformed_chunk tf ⟨k, target, some e, infer_plate pn plate chunk⟩ chunk,
        some ⟨k, target, some e, infer_plate pn plate chunk⟩) ::
        harmonize_groups tf pn target (some e) (infer_plate pn plate chunk) rest := by
  simp only [harmonize_groups]
  rw [if_neg (by simp)]

lemma harmonize_fst_of_no_epoch (tf : TransformFn) (pn : ℚ → ℚ → String)
    (target : String) :
    ∀ (groups : List (String × List IceflowRow)) (plate : Option String),
      (harmonize_groups tf pn target none plate groups).map Prod.fst =
        groups.map fun g =>
          if g.1 = target then g.2
          else transformed_chunk tf ⟨g.1, target, none, none⟩ g.2 := by
  intro groups
  induction groups with
  | nil => intro plate; rfl
  | cons g rest ih =>
    intro plate
    obtain ⟨k, chunk⟩ := g
    by_cases hk : k = target
    · rw [harmonize_cons_pass tf pn target plate k chunk rest hk]
      simp only [List.map_cons, ih plate]
      rw [if_pos hk]
    · rw [harmonize_cons_trans tf pn target plate k chunk rest hk]
      simp only [List.map_cons, ih plate]
      rw [if_neg hk]

lemma sublist_flatten_if (target : String) (F G : String → List IceflowRow) :
    ∀ keys : List String, target ∈ keys →
      List.Sublist (F target)
        ((keys.map fun k => if k = target then F k else G k).flatten) := by
  intro keys
  induction keys with
  | nil => intro h; exact absurd h (List.not_mem_nil _)
  | cons k rest ih =>
    intro h
    simp only [List.map_cons, List.flatten_cons]
    by_cases hk : k = target
    · rw [if_pos hk, hk]
      exact List.sublist_append_left _ _
    · rw [if_neg hk]
      rcases List.mem_cons.mp h with h2 | h2
      · exact absurd h2.symm hk
      · exact (ih h2).trans (List.sublist_append_right _ _)

lemma mem_insert_sorted (a s : String) (l : List String) :
    a ∈ insert_sorted s l ↔ a = s ∨ a ∈ l := by
  induction l with
  | nil => simp [insert_sorted]
  | cons k rest ih =>
    unfold insert_sorted
    by_cases h : str_le s k
    · rw [if_pos h]
      simp [List.mem_cons]
    · rw [if_neg h]
      simp only [List.mem_cons, ih]
      tauto

lemma mem_sort_keys (a : String) (l : List String) : a ∈ sort_keys l ↔ a ∈ l := by
  induction l with
  | nil => simp [sort_keys]
  | cons k rest ih =>
    unfold sort_keys
    rw [mem_insert_sorted]
    simp [List.mem_cons, ih]

lemma group_rows_nil_of_not_mem (data : List IceflowRow) (target : String)
    (h : target ∉ group_keys data) : group_rows data target = [] := by
  by_contra hne
  obtain ⟨r, hr⟩ := List.exists_mem_of_ne_nil _ hne
  have hrd : r ∈ data := (List.mem_filter.mp hr).1
  have hrt : r.itrf = target := of_decide_eq_true (List.mem_filter.mp hr).2
  apply h
  unfold group_keys
  rw [mem_sort_keys, List.mem_dedup]
  exact List.mem_map.mpr ⟨r, hrd, hrt⟩

/-- Claim C7: for every group of input points whose reference_frame equals the
target frame, when no target_epoch is requested, transform_itrf passes that
group through unchanged: whenever the call returns rows, the target-tagged
input group appears in the output as a sublist of rows that are equal - tag,
latitude, longitude and elevation bit-identical to the input - and this holds
per group, for every engine function and every input, including inputs whose
other groups are transformed. -/
theorem transform_itrf_passthrough (tf : TransformFn) (pn : ℚ → ℚ → String)
    (data : List IceflowRow) (target : String) (plate : Option String)
    (out : List IceflowRow)
    (h : transform_itrf tf pn data target none plate = Except.ok out) :
    List.Sublist (group_rows data target) out := by
  unfold transform_itrf at h
  by_cases hck : check_itrf target
  · rw [if_pos hck] at h
    unfold pd_concat at h
    by_cases he : ((harmonize_groups tf pn target none plate
        (keyed_groups data)).map Prod.fst).isEmpty
    · rw [if_pos he] at h
      exact absurd h (by simp)
    · rw [if_neg he] at h
      have hout : out = ((harmonize_groups tf pn target none plate
          (keyed_groups data)).map Prod.fst).flatten := by
        simpa using h.symm
      rw [hout, harmonize_fst_of_no_epoch tf pn target (keyed_groups data) plate]
      unfold keyed_groups
      rw [List.map_map]
      by_cases hmem : target ∈ group_keys data
      · have := sublist_flatten_if target (fun k => group_rows data k)
          (fun k => transformed_chunk tf ⟨k, target, none, none⟩ (group_rows data k))
          (group_keys data) hmem
        simpa [Function.comp] using this
      · rw [group_rows_nil_of_not_mem data target hmem]
        exact List.nil_sublist _
  · rw [if_neg hck] at h
    exact absurd h (by simp)

lemma transformed_chunk_tag (tf : TransformFn) (spec : TransformationSpec)
    (chunk : List IceflowRow) :
    ∀ r ∈ transformed_chunk tf spec chunk, r.itrf = spec.target_itrf := by
  intro r hr
  obtain ⟨x, _, rfl⟩ := List.mem_map.mp hr
  rfl

lemma harmonize_rows_tag (tf : TransformFn) (pn : ℚ → ℚ → String) (target : String)
    (epoch : Option String) :
    ∀ (groups : List (String × List IceflowRow)) (plate : Option String),
      (∀ g ∈ groups, ∀ r ∈ g.2, r.itrf = g.1) →
      ∀ r ∈ ((harmonize_groups tf pn target epoch plate groups).map Prod.fst).flatten,
        r.itrf = target := by
  intro groups
  induction groups with
  | nil => intro plate _ r hr; simp [harmonize_groups] at hr
  | cons g rest ih =>
    intro plate hg r hr
    obtain ⟨k, chunk⟩ := g
    have hgrest : ∀ g ∈ rest, ∀ r ∈ g.2, r.itrf = g.1 :=
      fun g hgm => hg g (List.mem_cons_of_mem _ hgm)
    have hchunk : ∀ r ∈ chunk, r.itrf = k :=
      hg (k, chunk) (List.mem_cons_self _ _)
    match epoch with
    | none =>
      by_cases hk : k = target
      · rw [harmonize_cons_pass tf pn target plate k chunk rest hk] at hr
        simp only [List.map_cons, List.flatten_cons, List.mem_append] at hr
        rcases hr with hr | hr
        · rw [hchunk r hr, hk]
        · exact ih plate hgrest r hr
      · rw [harmonize_cons_trans tf pn target plate k chunk rest hk] at hr
        simp only [List.map_cons, List.flatten_cons, List.mem_append] at hr
        rcases hr with hr | hr
        · exact transformed_chunk_tag tf _ chunk r hr
        · exact ih plate hgrest r hr
    | some e =>
      rw [harmonize_cons_epoch tf pn target plate k chunk rest e] at hr
      simp only [List.map_cons, List.flatten_cons, List.mem_append] at hr
      rcases hr with hr | hr
      · exact transformed_chunk_tag tf _ chunk r hr
      · exact ih (infer_plate pn plate chunk) hgrest r hr

lemma keyed_groups_tags (data : List IceflowRow) :
    ∀ g ∈ keyed_groups data, ∀ r ∈ g.2, r.itrf = g.1 := by
  intro g hg r hr
  unfold keyed_groups at hg
  obtain ⟨k, _, rfl⟩ := List.mem_map.mp hg
  exact of_decide_eq_true (List.mem_filter.mp hr).2

lemma keyed_groups_snd_ne_nil (data : List IceflowRow) :
    ∀ g ∈ keyed_groups data, g.2 ≠ [] := by
  intro g hg
  unfold keyed_groups at hg
  obtain ⟨k, hk, rfl⟩ := List.mem_map.mp hg
  unfold group_keys at hk
  rw [mem_sort_keys, List.mem_dedup] at hk
  obtain ⟨r, hr, hrk⟩ := List.mem_map.mp hk
  intro hnil
  have hnil2 : group_rows data k = [] := hnil
  have hmem : r ∈ group_rows data k := List.mem_filter.mpr ⟨hr, by simp [hrk]⟩
  rw [hnil2] at hmem
  exact absurd hmem (List.not_mem_nil r)

lemma harmonize_chunks_ne_nil (tf : TransformFn) (pn : ℚ → ℚ → String) (target : String)
    (epoch : Option String) :
    ∀ (groups : List (String × List IceflowRow)) (plate : Option String),
      (∀ g ∈ groups, g.2 ≠ []) →
      ∀ c ∈ (harmonize_groups tf pn target epoch plate groups).map Prod.fst, c ≠ [] := by
  intro groups
  induction groups with
  | nil => intro plate _ c hc; simp [harmonize_groups] at hc
  | cons g rest ih =>
    intro plate hg c hc
    obtain ⟨k, chunk⟩ := g
    have hgrest : ∀ g ∈ rest, g.2 ≠ [] := fun g hgm => hg g (List.mem_cons_of_mem _ hgm)
    have hchunk : chunk ≠ [] := hg (k, chunk) (List.mem_cons_self _ _)
    match epoch with
    | none =>
      by_cases hk : k = target
      · rw [harmonize_cons_pass tf pn target plate k chunk rest hk] at hc
        simp only [List.map_cons, List.mem_cons] at hc
        rcases hc with hc | hc
        · rw [hc]; exact hchunk
        · exact ih plate hgrest c hc
      · rw [harmonize_cons_trans tf pn target plate k chunk rest hk] at hc
        simp only [List.map_cons, List.mem_cons] at hc
        rcases hc with hc | hc
        · rw [hc]
          unfold transformed_chunk
          simp [hchunk]
        · exact ih plate hgrest c hc
    | some e =>
      rw [harmonize_cons_epoch tf pn target plate k chunk rest e] at hc
      simp only [List.map_cons, List.mem_cons] at hc
      rcases hc with hc | hc
      · rw [hc]
        unfold transformed_chunk
        simp [hchunk]
      · exact ih (infer_plate pn plate chunk) hgrest c hc

lemma flatten_ne_nil (cs : List (List IceflowRow)) (hne : cs ≠ [])
    (hall : ∀ c ∈ cs, c ≠ []) : cs.flatten ≠ [] := by
  match cs with
  | [] => exact absurd rfl hne
  | c :: rest =>
    have hc : c ≠ [] := hall c (List.mem_cons_self _ _)
    match c with
    | [] => exact absurd rfl hc
    | x :: xs => simp

lemma dedup_all (l : List String) (a : String) (hne : l ≠ [])
    (hall : ∀ x ∈ l, x = a) : l.dedup = [a] := by
  induction l with
  | nil => exact absurd rfl hne
  | cons x rest ih =>
    have hx : x = a := hall x (List.mem_cons_self x rest)
    subst hx
    match rest, ih with
    | [], _ => simp
    | y :: rest2, ih =>
      have hy : y = x := hall y (by simp)
      rw [List.dedup_cons_of_mem (by rw [hy]; exact List.mem_cons_self x rest2)]
      exact ih (by simp) (fun z hz => hall z (List.mem_cons_of_mem _ hz))

lemma group_keys_of_uniform (out : List IceflowRow) (target : String) (hne : out ≠ [])
    (hall : ∀ r ∈ out, r.itrf = target) : group_keys out = [target] := by
  unfold group_keys
  rw [dedup_all (out.map fun r => r.itrf) target (by simpa using hne)
    (by intro x hx; obtain ⟨r, hr, rfl⟩ := List.mem_map.mp hx; exact hall r hr)]
  rfl

lemma transform_itrf_fixed (tf : TransformFn) (pn : ℚ → ℚ → String)
    (plate : Option String) (out : List IceflowRow) (target : String)
    (hck : check_itrf target = true) (hne : out ≠ [])
    (hall : ∀ r ∈ out, r.itrf = target) :
    transform_itrf tf pn out target none plate = Except.ok out := by
  have hgr : group_rows out target = out :=
    List.filter_eq_self.mpr (fun r hr => by simp [hall r hr])
  unfold transform_itrf
  rw [if_pos hck]
  unfold keyed_groups
  rw [group_keys_of_uniform out target hne hall]
  simp only [List.map_cons, List.map_nil]
  rw [hgr, harmonize_cons_pass tf pn target plate target out [] rfl]
  show pd_concat ((((out, none) :: harmonize_groups tf pn target none plate []).map
    Prod.fst)) = Except.ok out
  simp [harmonize_groups, pd_concat]

/-- Claim C8: transform_itrf is idempotent when called with the same
target_frame and no target_epoch: for every input point set, binding a second
application onto the first yields the first application's result (after the
first application every row's tag equals the target, so the second
application is a per-group no-op; failed first applications propagate
unchanged). -/
theorem transform_itrf_idempotent (tf : TransformFn) (pn : ℚ → ℚ → String)
    (data : List IceflowRow) (target : String) (plate : Option String) :
    (transform_itrf tf pn data target none plate).bind
      (fun out => transform_itrf tf pn out target none plate)
    = transform_itrf tf pn data target none plate := by
  by_cases hck : check_itrf target
  · cases hout : transform_itrf tf pn data target none plate with
    | error e => rfl
    | ok out =>
      show transform_itrf tf pn out target none plate = Except.ok out
      have hout2 := hout
      unfold transform_itrf at hout2
      rw [if_pos hck] at hout2
      unfold pd_concat at hout2
      by_cases he : ((harmonize_groups tf pn target none plate
          (keyed_groups data)).map Prod.fst).isEmpty
      · rw [if_pos he] at hout2
        exact absurd hout2 (by simp)
      · rw [if_neg he] at hout2
        have hflat : out = ((harmonize_groups tf pn target none plate
            (keyed_groups data)).map Prod.fst).flatten := by
          simpa using hout2.symm
        have hall : ∀ r ∈ out, r.itrf = target := by
          rw [hflat]
          exact harmonize_rows_tag tf pn target none (keyed_groups data) plate
            (keyed_groups_tags data)
        have hne : out ≠ [] := by
          rw [hflat]
          apply flatten_ne_nil
          · intro hcs
            rw [List.isEmpty_iff] at he
            exact he hcs
          · exact harmonize_chunks_ne_nil tf pn target none (keyed_groups data) plate
              (keyed_groups_snd_ne_nil data)
        exact transform_itrf_fixed tf pn plate out target hck hne hall
  · unfold transform_itrf
    rw [if_neg hck]
    rfl

/-- Witness plate-boundary collaborator used by the concrete evaluations:
western longitudes resolve to NOAM, others to EURA. -/
def c2PlateName (lon _lat : ℚ) : String := if lon < 0 then "NOAM" else "EURA"

/-- Witness geodesy engine used by the concrete evaluations: returns the
coordinates unchanged (the claims under test do not depend on the engine's
numeric behavior). -/
def c2Tf : TransformFn := fun _ r => (r.longitude, r.latitude, r.elevation)

/-- A point in frame ITRF93 with centroid longitude -100 (plate NOAM). -/
def c2RowA : IceflowRow := ⟨"ITRF93", 45, -100, 10, 0⟩

/-- A point in frame ITRF96 with centroid longitude 100 (plate EURA). -/
def c2RowB : IceflowRow := ⟨"ITRF96", 44, 100, 11, 1⟩

/-- Claim C2 (the code violates it): with target_epoch given and no plate, on
two source-frame groups with different centroids, the engine spec built for
the second group reuses the plate inferred from the first group's centroid:
both specs carry NOAM although the second group's own centroid resolves to
EURA.  The source assigns the inferred plate to the loop-level variable, so
it is carried over to every later group, contradicting the claim (and the
code's own comment) that each group's plate comes from its own centroid. -/
theorem transform_itrf_plate_carried_across_groups :
    transform_itrf_specs c2Tf c2PlateName [c2RowA, c2RowB] "ITRF2014"
        (some "2019.0") none =
      [⟨"ITRF93", "ITRF2014", some "2019.0", some "NOAM"⟩,
       ⟨"ITRF96", "ITRF2014", some "2019.0", some "NOAM"⟩]
    ∧ c2PlateName (chunk_mean (fun r => r.longitude) [c2RowB])
        (chunk_mean (fun r => r.latitude) [c2RowB]) = "EURA" := by
  have hkg : keyed_groups [c2RowA, c2RowB] =
      [("ITRF93", [c2RowA]), ("ITRF96", [c2RowB])] := by decide
  have h1 : infer_plate c2PlateName none [c2RowA] = some "NOAM" := by
    norm_num [infer_plate, plate_falsy, chunk_mean, c2RowA, c2PlateName]
  have h2 : infer_plate c2PlateName (some "NOAM") [c2RowB] = some "NOAM" := by
    unfold infer_plate
    rw [if_neg (by decide)]
  constructor
  · unfold transform_itrf_specs
    rw [hkg]
    simp only [harmonize_groups]
    rw [if_neg (by simp), if_neg (by simp), h1, h2]
    simp [List.filterMap]
  · norm_num [c2PlateName, chunk_mean, c2RowB]

/-- A point already tagged with the target frame ITRF2014. -/
def c7RowT : IceflowRow := ⟨"ITRF2014", 1, 2, 3, 0⟩

/-- A point tagged ITRF2008, transformed by the witness call. -/
def c7RowS : IceflowRow := ⟨"ITRF2008", 4, 5, 6, 1⟩

/-- Witness for claim C7's theorem: on a two-group input whose ITRF2008 group
is transformed, the ITRF2014 group's rows appear unchanged in the output; the
hypothesis is discharged by computing the call. -/
theorem transform_itrf_passthrough_witness :
    List.Sublist (group_rows [c7RowT, c7RowS] "ITRF2014")
      [⟨"ITRF2014", 4, 5, 6, 1⟩, c7RowT] :=
  transform_itrf_passthrough c2Tf c2PlateName [c7RowT, c7RowS] "ITRF2014" none
    [⟨"ITRF2014", 4, 5, 6, 1⟩, c7RowT] (by decide)
